import Mathlib

/-!
# cffi-lua: arithmetic emulation and operator dispatch of `src/main.cc`

A shallow embedding of the `cdata_meta` metamethods of `main.cc` and of the
`ffi_module` functions `check_ct`, `metatype_f`, `ref_f` and `sizeof_f`.

* Machine integers are mathematical integers reduced explicitly to 64 bits.
* A function either returns its results, raises a Lua error (`luaL_error`), or
  faults (failed `assert`, access through a null or ill-typed pointer);
  the three outcomes are the constructors of `Res`.
* Everything `main.cc` calls but does not define (`ffi.hh`, `ast.hh`, the Lua
  API) is either a field of `Env` or a definition whose comment says that it
  is modelled from the specification.
-/

namespace cffi

/-! ## Outcomes -/

/-- Outcome of a piece of C++ code run inside a metamethod. -/
inductive Res (α : Type) where
  /-- normal completion -/
  | ok (a : α)
  /-- a Lua error was raised (`luaL_error`, `luaL_argerror`) with this message -/
  | error (msg : String)
  /-- the code failed an `assert` or dereferenced a null / ill-typed pointer -/
  | fault (what : String)
  deriving DecidableEq, Repr

/-- Sequencing of outcomes: the first error or fault ends the computation. -/
def Res.bind {α β : Type} (r : Res α) (f : α → Res β) : Res β :=
  match r with
  | .ok a => f a
  | .error m => .error m
  | .fault w => .fault w

instance : Monad Res where
  pure := Res.ok
  bind := Res.bind

/-! ## 64-bit machine arithmetic -/

/-- Bit pattern of width `w` of the integer `x` (two's complement). -/
def wrap (w : Nat) (x : Int) : Nat := (x % (2 : Int) ^ w).toNat

/-- Signed reading of the low `w` bits of `n` (two's complement). -/
def toSigned (w : Nat) (n : Nat) : Int :=
  if n % 2 ^ w < 2 ^ (w - 1) then ((n % 2 ^ w : Nat) : Int)
  else ((n % 2 ^ w : Nat) : Int) - (2 : Int) ^ w

/-- Conversion of an integer to the 64-bit type `T` of a template
instantiation: `long long` when `T_signed`, `unsigned long long` otherwise. -/
def cast64 (T_signed : Bool) (x : Int) : Int :=
  if T_signed then toSigned 64 (wrap 64 x) else ((wrap 64 x : Nat) : Int)

/-- Membership of an integer in the value range of the 64-bit type `T`. -/
abbrev in_range64 (T_signed : Bool) (x : Int) : Prop :=
  if T_signed then -(2 : Int) ^ 63 ≤ x ∧ x < (2 : Int) ^ 63
  else 0 ≤ x ∧ x < (2 : Int) ^ 64

/-! ## Expression tags and values (`ast::c_expr_type`, `ast::c_value`) -/

/-- Modelled from the spec: the type tags of the expression evaluator
(`ast::c_expr_type`, declared in `ast.hh`). `main.cc` names `INT` to
`LDOUBLE`, `BOOL`, `UNARY` and `BINARY`; the other enumerators only ever reach
a `default:` branch. -/
inductive c_expr_type where
  | INVALID | INT | UINT | LONG | ULONG | LLONG | ULLONG
  | FLOAT | DOUBLE | LDOUBLE | STRING | CHAR | NULLPTR | BOOL
  | NAME | UNARY | BINARY | TERNARY
  deriving DecidableEq, Repr

/-- Modelled from the spec: binary operators of the expression evaluator
(`ast::c_expr_binop`, declared in `ast.hh`), those `main.cc` names. -/
inductive c_expr_binop where
  | ADD | SUB | MUL | DIV | MOD | EQ | LT | LE | BAND | BOR | BXOR | LSH | RSH
  deriving DecidableEq, Repr

/-- The `ast::c_value` union, kept as the bit pattern of its storage read as
a little-endian number: the `int` member is the low 32 bits, the
`long long` member the low 64 bits. -/
structure c_value where
  bits : Nat
  deriving DecidableEq, Repr

/-- Platform facts `main.cc` depends on. `int` is 32 bits and `long long`
64 bits wide; `long` is `long_bits` wide, so
`sizeof(long) == sizeof(long long)` is `long_bits = 64`. `fp_trunc t n` is the
integer part of the floating member selected by tag `t` in storage `n`. -/
structure Platform where
  long_bits : Nat
  fp_trunc : c_expr_type → Nat → Int

/-- The `int` member. -/
def c_value.i (v : c_value) : Int := toSigned 32 v.bits
/-- The `unsigned int` member. -/
def c_value.u (v : c_value) : Int := ((v.bits % 2 ^ 32 : Nat) : Int)
/-- The `long` member. -/
def c_value.l (P : Platform) (v : c_value) : Int := toSigned P.long_bits v.bits
/-- The `unsigned long` member. -/
def c_value.ul (P : Platform) (v : c_value) : Int := ((v.bits % 2 ^ P.long_bits : Nat) : Int)
/-- The `long long` member. -/
def c_value.ll (v : c_value) : Int := toSigned 64 v.bits
/-- The `unsigned long long` member. -/
def c_value.ull (v : c_value) : Int := ((v.bits % 2 ^ 64 : Nat) : Int)
/-- The `bool` member. -/
def c_value.b (v : c_value) : Bool := v.bits % 2 ^ 8 != 0

/-- Store of a 64-bit integer `x` (of type `T`) through a `T *` into the
union: the low eight bytes are replaced, the others kept. -/
def c_value.set64 (v : c_value) (x : Int) : c_value :=
  { bits := v.bits / 2 ^ 64 * 2 ^ 64 + wrap 64 x }

namespace cdata_meta

/-- Embedding of `promote_to_64bit<T, et>(t, v)`: the member selected by the
tag `t` is read, converted to `T` and stored back; unknown tags leave the
storage alone; the tag becomes `et` in every case. -/
def promote_to_64bit (P : Platform) (T_signed : Bool) (et : c_expr_type)
    (t : c_expr_type) (v : c_value) : c_expr_type × c_value :=
  let v1 :=
    match t with
    | .INT => v.set64 (cast64 T_signed v.i)
    | .UINT => v.set64 (cast64 T_signed v.u)
    | .LONG => v.set64 (cast64 T_signed (v.l P))
    | .ULONG => v.set64 (cast64 T_signed (v.ul P))
    | .LLONG => v.set64 (cast64 T_signed v.ll)
    | .FLOAT => v.set64 (cast64 T_signed (P.fp_trunc .FLOAT v.bits))
    | .DOUBLE => v.set64 (cast64 T_signed (P.fp_trunc .DOUBLE v.bits))
    | .LDOUBLE => v.set64 (cast64 T_signed (P.fp_trunc .LDOUBLE v.bits))
    | _ => v
  (et, v1)

/-- Embedding of `promote_long(t)`. -/
def promote_long (P : Platform) (t : c_expr_type) : c_expr_type :=
  if P.long_bits = 64 then
    match t with
    | .LONG => .LLONG
    | .ULONG => .ULLONG
    | _ => t
  else t

/-- Embedding of `promote_sides(lt, lv, rt, rv)`; the result is the new
`((lt, lv), (rt, rv))`. -/
def promote_sides (P : Platform) (lt : c_expr_type) (lv : c_value)
    (rt : c_expr_type) (rv : c_value) :
    (c_expr_type × c_value) × (c_expr_type × c_value) :=
  let lt := promote_long P lt
  let rt := promote_long P rt
  if lt = .ULLONG ∨ rt = .ULLONG then
    (promote_to_64bit P false .ULLONG lt lv, promote_to_64bit P false .ULLONG rt rv)
  else
    (promote_to_64bit P true .LLONG lt lv, promote_to_64bit P true .LLONG rt rv)

/-- The `for (;;)` loop of `powimp<T>`; `exp` is non-negative here, so
`exp & 1` is `exp % 2` and `exp >> 1` is `exp / 2`. Products are reduced to
`T` (wrapping). -/
def powimp_loop (T_signed : Bool) (base : Int) (exp : Nat) (ret : Int) : Int :=
  let ret1 := if exp % 2 = 1 then cast64 T_signed (ret * base) else ret
  if _h : exp / 2 = 0 then ret1
  else powimp_loop T_signed (cast64 T_signed (base * base)) (exp / 2) ret1
termination_by exp
decreasing_by omega

/-- Embedding of `powimp<T>(base, exp)`. -/
def powimp (T_signed : Bool) (base exp : Int) : Int :=
  if T_signed && decide (exp < 0) then 0
  else powimp_loop T_signed base exp.toNat 1

/-- Lines 554 to 566 of `pow`: promotion of both sides, the two assertions and
the dispatch on the promoted tag. The result is the final `(lt, lhs)`. -/
def pow_arith (P : Platform) (lt : c_expr_type) (lhs : c_value)
    (rt : c_expr_type) (rhs : c_value) : Res (c_expr_type × c_value) :=
  let p := promote_sides P lt lhs rt rhs
  let lt := p.1.1
  let lhs := p.1.2
  let rt := p.2.1
  let rhs := p.2.2
  if lt ≠ rt then .fault "assert(lt == rt)"
  else
    match lt with
    | .LLONG => .ok (lt, lhs.set64 (powimp true lhs.ll rhs.ll))
    | .ULLONG => .ok (lt, lhs.set64 (powimp false lhs.ull rhs.ull))
    | _ => .fault "assert(false)"

end cdata_meta

/-! ## Type descriptors, values and the Lua state -/

/-- Modelled from the spec: identity of a record declaration (`ast::c_record`,
declared in `ast.hh`); its metatype registration is kept in the Lua state. -/
structure c_record where
  id : Nat
  deriving DecidableEq, Repr

/-- Modelled from the spec: the kind classification `c_type::type()` of a
type descriptor (`ast::C_BUILTIN_*`, declared in `ast.hh`). `main.cc` names
the six kinds below; `ARITH` stands for the codes of the arithmetic
primitives. -/
inductive c_builtin where
  | VOID | PTR | REF | ARRAY | RECORD | FUNC | ARITH (code : Nat)
  deriving DecidableEq, Repr

/-- Modelled from the spec: the type descriptor (`ast::c_type`, declared in
`ast.hh`), one of void, arithmetic primitive, record, function, pointer,
reference and array, the last three with their base (pointee) type. -/
inductive c_type where
  | void
  | arith (code : Nat)
  | record (r : c_record)
  | func (closure : Bool)
  | ptr (base : c_type)
  | ref (base : c_type)
  | array (base : c_type)
  deriving DecidableEq, Repr

/-- Modelled from the spec: `c_type::type()`, the kind of a descriptor. -/
def c_type.type : c_type → c_builtin
  | .void => .VOID
  | .arith code => .ARITH code
  | .record _ => .RECORD
  | .func _ => .FUNC
  | .ptr _ => .PTR
  | .ref _ => .REF
  | .array _ => .ARRAY

/-- Modelled from the spec: `c_type::arith()`, true of the arithmetic
primitives only. -/
def c_type.is_arith : c_type → Bool
  | .arith _ => true
  | _ => false

/-- Modelled from the spec: `c_type::deref()`, which strips exactly one
reference level and is never recursive. -/
def c_type.deref : c_type → c_type
  | .ref base => base
  | t => t

/-- Modelled from the spec: `c_type::ptr_base()`, the base (pointee) type of
a pointer, reference or array descriptor; other kinds have none. -/
def c_type.ptr_base : c_type → Option c_type
  | .ptr base => some base
  | .ref base => some base
  | .array base => some base
  | _ => none

/-- Modelled from the spec: `c_type::callable()`, true of the callable kinds:
function types and pointers to functions. -/
def c_type.callable : c_type → Bool
  | .func _ => true
  | .ptr (.func _) => true
  | _ => false

/-- Modelled from the spec: `c_type::closure()`, true of the closure kinds:
callable types whose function is a callback trampoline. -/
def c_type.closure : c_type → Bool
  | .func c => c
  | .ptr (.func c) => c
  | _ => false

/-- A value of this system: its descriptor, its storage read as an
address-sized integer (the `ffi::cdata<void *>` view), whether it is a ctype,
and, for the `ffi::cdata<ffi::fdata>` view of function values, the member
`val.cd`: the closure data bound to the value, `none` for a null pointer. -/
structure cdata where
  decl : c_type
  val : Nat
  ctype : Bool
  cd : Option Nat := none
  deriving DecidableEq, Repr

/-- The C functions `index` hands out as pseudo-methods of a callback. -/
inductive c_function where
  | cb_free | cb_set
  deriving DecidableEq, Repr

/-- Values on the Lua stack. `cval` is a userdata carrying the cdata
metatable (a cdata or a ctype); `userdata` is any other userdata; `func` is a
Lua function and `cfunction` a C function pushed by `main.cc`. Numbers are
the integral ones. -/
inductive LuaValue where
  | nil
  | boolean (b : Bool)
  | number (n : Int)
  | string (s : String)
  | table (id : Nat)
  | func (id : Nat)
  | userdata (id : Nat)
  | cval (cd : cdata)
  | cfunction (f : c_function)
  deriving DecidableEq, Repr

/-- Whether a stack value is a cdata or ctype of this system (`ffi::iscval`). -/
def LuaValue.iscval : LuaValue → Bool
  | .cval _ => true
  | _ => false

/-- Modelled from the spec: `ffi::testcdata<void *>(L, idx)` (`ffi.hh`): the
cdata behind the stack value, null for a value that is not of this system and
for a ctype, which carries no data and takes part in no arithmetic. -/
def testcdata : LuaValue → Option cdata
  | .cval cd => if cd.ctype then none else some cd
  | _ => none

/-- The Lua API `lua_toboolean`. -/
def lua_toboolean : LuaValue → Bool
  | .nil => false
  | .boolean b => b
  | _ => true

/-- The value `LUA_REFNIL` of the Lua auxiliary library. -/
def LUA_REFNIL : Int := -1

/-- The capability flags `ffi::METATYPE_FLAG_*`, one per `FIELD_CHECK` line of
`metatype_f`. -/
inductive metatype_flag where
  | ADD | SUB | MUL | DIV | MOD | POW | UNM | CONCAT | LEN | EQ | LT | LE
  | INDEX | NEWINDEX | CALL | GC | TOSTRING | PAIRS | IPAIRS
  | IDIV | BAND | BOR | BXOR | BNOT | SHL | SHR
  deriving DecidableEq, Repr

/-- Modelled from the spec: bit position of a capability flag in the flag
word (the `enum` is declared in `ffi.hh`); positions follow the order of the
`FIELD_CHECK` lines. -/
def metatype_flag.pos : metatype_flag → Nat
  | .ADD => 0 | .SUB => 1 | .MUL => 2 | .DIV => 3 | .MOD => 4 | .POW => 5
  | .UNM => 6 | .CONCAT => 7 | .LEN => 8 | .EQ => 9 | .LT => 10 | .LE => 11
  | .INDEX => 12 | .NEWINDEX => 13 | .CALL => 14 | .GC => 15 | .TOSTRING => 16
  | .PAIRS => 17 | .IPAIRS => 18 | .IDIV => 19 | .BAND => 20 | .BOR => 21
  | .BXOR => 22 | .BNOT => 23 | .SHL => 24 | .SHR => 25

/-- The field name tested for a flag by `FIELD_CHECK`
(`ffi::metafield_name`). -/
def metafield_name : metatype_flag → String
  | .ADD => "__add" | .SUB => "__sub" | .MUL => "__mul" | .DIV => "__div"
  | .MOD => "__mod" | .POW => "__pow" | .UNM => "__unm" | .CONCAT => "__concat"
  | .LEN => "__len" | .EQ => "__eq" | .LT => "__lt" | .LE => "__le"
  | .INDEX => "__index" | .NEWINDEX => "__newindex" | .CALL => "__call"
  | .GC => "__gc" | .TOSTRING => "__tostring" | .PAIRS => "__pairs"
  | .IPAIRS => "__ipairs" | .IDIV => "__idiv" | .BAND => "__band"
  | .BOR => "__bor" | .BXOR => "__bxor" | .BNOT => "__bnot"
  | .SHL => "__shl" | .SHR => "__shr"

/-- The part of the Lua state the metamethods read and write: the metatype
registration of every record, `c_record::metatype(mflags)`, as the pair
(reference, flags); the registry table `__ffi_metatypes`, which maps a
reference to an override table (a map from field names to values, `nil` for
an absent field), with the number `ffi_refs` of references taken in it; the
string-keyed fields of the Lua tables (read raw); the live closure data by
address, each with its member `fref` (`none` once released); and the Lua
registry with the number of references taken in it. -/
structure lua_State where
  metatype : Nat → Int × Nat
  ffi_metatypes : Int → Option (String → LuaValue)
  ffi_refs : Nat := 0
  tables : Nat → String → LuaValue := fun _ _ => LuaValue.nil
  closures : Nat → Option Int := fun _ => none
  registry : Int → LuaValue := fun _ => LuaValue.nil
  registry_refs : Nat := 0

/-- The collaborators of `main.cc` that are not part of it: platform facts,
the type descriptor service (`alloc_size`, `is_same`, `serialize`), the value
runtime of `ffi.hh` (`check_arith<ptrdiff_t>`, `check_arith_expr`,
`get_deref_addr`, `make_cdata_arith`, `lua_serialize`), the expression
evaluator `c_expr::eval`, and the Lua API (`lua_call`, `lua_isnumber` on
strings). The second group serves `ffi_module` and the indexing and call
metamethods: `parse_type` is `luaL_checkstring` followed by
`parser::parse_type`; `make_cdata` is `ffi::make_cdata` under `RULE_CONV` on
the arguments from index 2 on; `to_lua` is `ffi::to_lua` under `RULE_CONV` at
an address (`none` when it pushes nothing); `storage_addr` is `&cd.val`;
`field_offset` is `c_record::field_offset` (`none` for a negative offset);
`number_to_string` and `string_to_number` are the Lua coercions;
`lua_touserdata` is the block address of a userdata that is not of this
system. -/
structure Env where
  P : Platform
  alloc_size : c_type → Nat
  is_same : c_type → c_type → Bool → Bool
  serialize : c_type → String
  lua_serialize : LuaValue → String
  check_arith_ptrdiff_t : Nat → LuaValue → Res Int
  check_arith_expr : Nat → LuaValue → Res (c_expr_type × c_value)
  eval : c_expr_binop → c_expr_type × c_value → c_expr_type × c_value →
    Res (c_expr_type × c_value)
  make_cdata_arith : c_expr_type → c_value → Res LuaValue
  get_deref_addr : cdata → Nat
  lua_call : LuaValue → List LuaValue → Res (List LuaValue)
  string_is_number : String → Bool
  LUA_VERSION_NUM : Nat
  parse_type : LuaValue → Res c_type
  make_cdata : c_type → List LuaValue → Res LuaValue
  call_cif : cdata → List LuaValue → Res (List LuaValue)
  to_lua : c_type → Nat → Res (Option LuaValue)
  get_addr : cdata → Nat
  storage_addr : cdata → Nat
  cdata_value_size : cdata → Nat
  check_arith_size_t : Nat → LuaValue → Res Nat
  check_arith_llong : Nat → LuaValue → Res Int
  integer : c_type → Bool
  is_unsigned : c_type → Bool
  vla : c_type → Bool
  unbounded : c_type → Bool
  field_offset : c_record → String → Option (Nat × c_type)
  lua_gettable : LuaValue → LuaValue → Res LuaValue
  number_to_string : Int → String
  string_to_number : String → Int
  lua_touserdata : Nat → Nat

/-- The Lua API `lua_isnumber`: numbers and numeric strings. -/
def lua_isnumber (E : Env) : LuaValue → Bool
  | .number _ => true
  | .string s => E.string_is_number s
  | _ => false

/-- The call `lua_call(L, nargs, 1)`: exactly one result is left, `nil` when
the callee returns nothing. -/
def lua_call1 (E : Env) (f : LuaValue) (args : List LuaValue) : Res LuaValue :=
  (E.lua_call f args).bind (fun rs => .ok (rs.headD .nil))

/-- Modelled from the spec: `ffi::metatype_getfield(L, mt, name)` (`ffi.hh`):
the field `name` of the override table registered under reference `mt`, pushed
when it exists and is not `nil`. -/
def metatype_getfield (L : lua_State) (mt : Int) (name : String) : Option LuaValue :=
  match L.ffi_metatypes mt with
  | none => none
  | some t => if t name = .nil then none else some (t name)

/-- The Lua API `lua_isfunction`. -/
def lua_isfunction : LuaValue → Bool
  | .func _ => true
  | .cfunction _ => true
  | _ => false

/-- The Lua API `lua_tostring`: strings and numbers convert, every other
value yields a null pointer. -/
def lua_tostring (E : Env) : LuaValue → Option String
  | .string s => some s
  | .number n => some (E.number_to_string n)
  | _ => none

/-- The message of `luaL_argerror(L, idx, msg)`, which `luaL_argcheck`,
`luaL_checktype`, `luaL_checkstring` and `lua::type_error` raise; the name of
the running function, which Lua adds, is left out. -/
def arg_error (idx : Nat) (msg : String) : String :=
  "bad argument #" ++ toString idx ++ " (" ++ msg ++ ")"

/-- The Lua API `luaL_checkstring`. -/
def luaL_checkstring (E : Env) (idx : Nat) (v : LuaValue) : Res String :=
  match lua_tostring E v with
  | some s => .ok s
  | none => .error (arg_error idx "string expected")

/-- Conversion of a `size_t` to `lua_Integer` by `lua_pushinteger`. -/
def lua_Integer_of_size_t (n : Nat) : Int := toSigned 64 (n % 2 ^ 64)

/-- Modelled from the spec: `ffi::newctype(L, decl)` (`ffi.hh`): a ctype, a
value of this system that carries a descriptor and no data. -/
def newctype (decl : c_type) : LuaValue :=
  .cval { decl := decl, val := 0, ctype := true }

/-- Modelled from the spec: `ffi::iscdata(L, idx)` (`ffi.hh`): a value of
this system that is not a ctype. -/
def iscdata : LuaValue → Bool
  | .cval cd => !cd.ctype
  | _ => false

/-- Modelled from the spec: `ffi::checkcdata<T>(L, idx)` (`ffi.hh`): the
cdata behind the stack value, an argument error for a value that is not of
this system and for a ctype. -/
def checkcdata (idx : Nat) : LuaValue → Res cdata
  | .cval cd => if cd.ctype then .error (arg_error idx "cdata expected") else .ok cd
  | _ => .error (arg_error idx "cdata expected")

/-- Modelled from the spec: `ffi::destroy_closure(cd.val.cd)` (`ffi.hh`) on
the closure data at address `k` bound to the value `c`: the trampoline is
released and, a freed closure being one whose use is the "bad callback"
error, the value is left without a bound native entry. Releasing a closure
that is not live is a fault. -/
def destroy_closure (L : lua_State) (c : cdata) (k : Nat) : Res (lua_State × cdata) :=
  match L.closures k with
  | none => .fault "destroy_closure on a released closure"
  | some _ =>
    .ok ({ L with closures := fun j => if j = k then none else L.closures j },
         { c with cd := none })

/-- Difference of two addresses as a `ptrdiff_t`. -/
def ptrdiff_t_sub (p q : Nat) : Int := toSigned 64 (wrap 64 ((p : Int) - (q : Int)))

namespace cdata_meta

/-- Embedding of `metatype_getmt(L, idx, mflags)`; the result is the returned
reference and the final `mflags`, which the caller initialised to 0.
`tocdata` does not check its argument, so a stack value that is not of this
system is a fault. -/
def metatype_getmt (L : lua_State) (v : LuaValue) : Res (Int × Nat) :=
  match v with
  | .cval cd =>
    match cd.decl with
    | .record r => .ok (L.metatype r.id)
    | .ptr base =>
      match base with
      | .record r => .ok (L.metatype r.id)
      | _ => .ok (LUA_REFNIL, 0)
    | .ref base =>
      match base with
      | .record r => .ok (L.metatype r.id)
      | _ => .ok (LUA_REFNIL, 0)
    | _ => .ok (LUA_REFNIL, 0)
  | _ => .fault "tocdata on a value that is not a cdata"

/-- Embedding of `metatype_check<flag>(L, idx)`: `some f` when it returns true,
having pushed the override `f`; `none` when it returns false. -/
def metatype_check (L : lua_State) (flag : metatype_flag) (v : LuaValue) :
    Res (Option LuaValue) :=
  (metatype_getmt L v).bind (fun m =>
    if !(m.2.testBit flag.pos) then .ok none
    else .ok (metatype_getfield L m.1 (metafield_name flag)))

/-- Embedding of `binop_try_mt<mtype>(L, cd1, cd2)` with the operands `a`, `b`
at stack indices 1 and 2: `some r` when it returns true, `r` being the single
result of the override called on the stack contents `(a, b)`; `none` when it
returns false. -/
def binop_try_mt (E : Env) (L : lua_State) (mtype : metatype_flag)
    (cd1 cd2 : Option cdata) (a b : LuaValue) : Res (Option LuaValue) :=
  (if cd1.isSome then metatype_check L mtype a else .ok none).bind (fun f1 =>
    (match f1 with
      | some f => Res.ok (some f)
      | none => if cd2.isSome then metatype_check L mtype b else Res.ok none).bind (fun f2 =>
        match f2 with
        | some f => (lua_call1 E f [a, b]).bind (fun r => .ok (some r))
        | none => .ok none))

/-- Embedding of `arith_64bit_base(L, op, retp)`; the result is `(retp, rv)`. -/
def arith_64bit_base (E : Env) (op : c_expr_binop) (a b : LuaValue) :
    Res (c_expr_type × c_value) :=
  (E.check_arith_expr 1 a).bind (fun l =>
    (E.check_arith_expr 2 b).bind (fun r =>
      let p := promote_sides E.P l.1 l.2 r.1 r.2
      E.eval op p.1 p.2))

/-- Embedding of `arith_64bit_bin(L, op)`. -/
def arith_64bit_bin (E : Env) (op : c_expr_binop) (a b : LuaValue) : Res LuaValue :=
  (arith_64bit_base E op a b).bind (fun r => E.make_cdata_arith r.1 r.2)

/-- Embedding of `arith_64bit_cmp(L, op)`. -/
def arith_64bit_cmp (E : Env) (op : c_expr_binop) (a b : LuaValue) : Res LuaValue :=
  (arith_64bit_base E op a b).bind (fun r =>
    if r.1 ≠ .BOOL then .fault "assert(retp == ast::c_expr_type::BOOL)"
    else .ok (.boolean r.2.b))

/-- Embedding of `add(L)` on the operands `a`, `b`. -/
def add (E : Env) (L : lua_State) (a b : LuaValue) : Res LuaValue :=
  let cd1 := testcdata a
  let cd2 := testcdata b
  (binop_try_mt E L .ADD cd1 cd2 a b).bind (fun r =>
    match r with
    | some res => .ok res
    | none =>
      match cd1 with
      | some { decl := .ptr base, val := p, ctype := _, cd := _ } =>
        (E.check_arith_ptrdiff_t 2 b).bind (fun d =>
          .ok (.cval { decl := .ptr base, val := wrap 64 ((p : Int) + d), ctype := false }))
      | _ =>
        match cd2 with
        | some { decl := .ptr base, val := p, ctype := _, cd := _ } =>
          (E.check_arith_ptrdiff_t 1 a).bind (fun d =>
            .ok (.cval { decl := .ptr base, val := wrap 64 (d + (p : Int)), ctype := false }))
        | _ => arith_64bit_bin E .ADD a b)

/-- Embedding of `sub(L)` on the operands `a`, `b`. The quotient
`ret / asize` divides a `ptrdiff_t` by a `size_t`, so it is taken on the
unsigned bit pattern of `ret` before the conversion to `lua_Integer`. -/
def sub (E : Env) (L : lua_State) (a b : LuaValue) : Res LuaValue :=
  let cd1 := testcdata a
  let cd2 := testcdata b
  (binop_try_mt E L .SUB cd1 cd2 a b).bind (fun r =>
    match r with
    | some res => .ok res
    | none =>
      match cd1 with
      | some { decl := .ptr base1, val := p, ctype := _, cd := _ } =>
        let asize := E.alloc_size base1
        if asize = 0 then .error "unknown C type size"
        else
          (match cd2 with
            | some { decl := .ptr base2, val := q, ctype := _, cd := _ } =>
              if !(E.is_same base1 base2 true) then
                Res.error ("cannot convert '" ++ E.serialize (.ptr base2) ++ "' to '"
                  ++ E.serialize (.ptr base1) ++ "'")
              else Res.ok (ptrdiff_t_sub p q)
            | _ =>
              (E.check_arith_ptrdiff_t 2 b).bind (fun d =>
                .ok (ptrdiff_t_sub p (wrap 64 d)))).bind (fun ret =>
            .ok (.number (toSigned 64 (wrap 64 ret / asize))))
      | _ => arith_64bit_bin E .SUB a b)

/-- Embedding of `pow(L)` on the operands `a`, `b`. -/
def pow (E : Env) (L : lua_State) (a b : LuaValue) : Res LuaValue :=
  let cd1 := testcdata a
  let cd2 := testcdata b
  (binop_try_mt E L .POW cd1 cd2 a b).bind (fun r =>
    match r with
    | some res => .ok res
    | none =>
      (E.check_arith_expr 1 a).bind (fun l =>
        (E.check_arith_expr 2 b).bind (fun r =>
          (pow_arith E.P l.1 l.2 r.1 r.2).bind (fun res =>
            E.make_cdata_arith res.1 res.2))))

/-- Embedding of `eq(L)` on the operands `a`, `b`. -/
def eq (E : Env) (L : lua_State) (a b : LuaValue) : Res LuaValue :=
  let cd1 := testcdata a
  let cd2 := testcdata b
  (binop_try_mt E L .EQ cd1 cd2 a b).bind (fun r =>
    match r with
    | some res => .ok res
    | none =>
      match cd1, cd2 with
      | some c1, some c2 =>
        if !c1.decl.deref.is_arith || !c2.decl.deref.is_arith then
          .ok (.boolean (E.get_deref_addr c1 == E.get_deref_addr c2))
        else arith_64bit_cmp E .EQ a b
      | _, _ => .ok (.boolean false))

/-- The error raised by `cmp_base`. -/
def compare_error (E : Env) (a b : LuaValue) : String :=
  "attempt to compare '" ++ E.lua_serialize a ++ "' with '" ++ E.lua_serialize b ++ "'"

/-- Embedding of `cmp_base(L, op, cd1, cd2)`: `some r` when it returns true,
having pushed `r`; `none` when it returns false. -/
def cmp_base (E : Env) (op : c_expr_binop) (cd1 cd2 : Option cdata)
    (a b : LuaValue) : Res (Option LuaValue) :=
  match cd1, cd2 with
  | some c1, some c2 =>
    if c1.decl.deref.is_arith && c2.decl.deref.is_arith then
      (arith_64bit_cmp E op a b).bind (fun r => .ok (some r))
    else
      match c1.decl.deref, c2.decl.deref with
      | .ptr base1, .ptr base2 =>
        if !(E.is_same base1 base2 true) then .error (compare_error E a b)
        else .ok none
      | _, _ => .error (compare_error E a b)
  | some c1, none =>
    if !c1.decl.is_arith || !(lua_isnumber E b) then .error (compare_error E a b)
    else (arith_64bit_cmp E op a b).bind (fun r => .ok (some r))
  | none, some c2 =>
    if !c2.decl.is_arith || !(lua_isnumber E a) then .error (compare_error E a b)
    else (arith_64bit_cmp E op a b).bind (fun r => .ok (some r))
  | none, none => .fault "ccd is null"

/-- Embedding of `lt(L)` on the operands `a`, `b`. -/
def lt (E : Env) (L : lua_State) (a b : LuaValue) : Res LuaValue :=
  let cd1 := testcdata a
  let cd2 := testcdata b
  (binop_try_mt E L .LT cd1 cd2 a b).bind (fun r =>
    match r with
    | some res => .ok res
    | none =>
      (cmp_base E .LT cd1 cd2 a b).bind (fun c =>
        match c with
        | some res => .ok res
        | none =>
          match cd1, cd2 with
          | some c1, some c2 =>
            .ok (.boolean (decide (E.get_deref_addr c1 < E.get_deref_addr c2)))
          | _, _ => .fault "null cdata"))

/-- Embedding of `le(L)` on the operands `a`, `b`. The second attempt passes
the cdata pointers in swapped order to `binop_try_mt`; the stack is not
touched between the two attempts. -/
def le (E : Env) (L : lua_State) (a b : LuaValue) : Res LuaValue :=
  let cd1 := testcdata a
  let cd2 := testcdata b
  (binop_try_mt E L .LE cd1 cd2 a b).bind (fun r =>
    match r with
    | some res => .ok res
    | none =>
      (binop_try_mt E L .LT cd2 cd1 a b).bind (fun r2 =>
        match r2 with
        | some res => .ok (.boolean (!(lua_toboolean res)))
        | none =>
          (cmp_base E .LE cd1 cd2 a b).bind (fun c =>
            match c with
            | some res => .ok res
            | none =>
              match cd1, cd2 with
              | some c1, some c2 =>
                .ok (.boolean (decide (E.get_deref_addr c1 ≤ E.get_deref_addr c2)))
              | _, _ => .fault "null cdata")))

/-- Embedding of `arith_bin<mflag, bop>(L)` on the operands `a`, `b`. -/
def arith_bin (mflag : metatype_flag) (bop : c_expr_binop) (E : Env) (L : lua_State)
    (a b : LuaValue) : Res LuaValue :=
  let cd1 := testcdata a
  let cd2 := testcdata b
  (binop_try_mt E L mflag cd1 cd2 a b).bind (fun r =>
    match r with
    | some res => .ok res
    | none => arith_64bit_bin E bop a b)

/-- Embedding of `concat(L)` on the operands `a`, `b`. -/
def concat (E : Env) (L : lua_State) (a b : LuaValue) : Res LuaValue :=
  let cd1 := testcdata a
  let cd2 := testcdata b
  (binop_try_mt E L .CONCAT cd1 cd2 a b).bind (fun r =>
    match r with
    | some res => .ok res
    | none =>
      .error ("attempt to concatenate '" ++ E.lua_serialize a ++ "' and '"
        ++ E.lua_serialize b ++ "'"))

/-- Lines 714 to 717 of `shift_bin`: the promotion of the left operand
alone; the result is the new `(lt, lhs.val)`. -/
def shift_promote (P : Platform) (lt : c_expr_type) (lhs : c_value) : c_expr_type × c_value :=
  let lt := promote_long P lt
  if lt ≠ .ULLONG then promote_to_64bit P true .LLONG lt lhs else (lt, lhs)

/-- Embedding of `shift_bin<mflag, bop>(L)` on the operands `a`, `b`. -/
def shift_bin (mflag : metatype_flag) (bop : c_expr_binop) (E : Env) (L : lua_State)
    (a b : LuaValue) : Res LuaValue :=
  let cd1 := testcdata a
  let cd2 := testcdata b
  (binop_try_mt E L mflag cd1 cd2 a b).bind (fun r =>
    match r with
    | some res => .ok res
    | none =>
      (E.check_arith_expr 1 a).bind (fun l =>
        (E.check_arith_expr 2 b).bind (fun r =>
          (E.eval bop (shift_promote E.P l.1 l.2) r).bind (fun res =>
            E.make_cdata_arith res.1 res.2))))

/-- The binary metamethods `setup` installs, by the capability flag of the
field they are stored under (`__add` is `add`, `__mul` is
`arith_bin<METATYPE_FLAG_MUL, MUL>`, `__idiv` is
`arith_bin<METATYPE_FLAG_IDIV, DIV>`, `__shl` is
`shift_bin<METATYPE_FLAG_SHL, LSH>`, and so on). -/
def setup : metatype_flag →
    Option (Env → lua_State → LuaValue → LuaValue → Res LuaValue)
  | .ADD => some add
  | .SUB => some sub
  | .MUL => some (arith_bin .MUL .MUL)
  | .DIV => some (arith_bin .DIV .DIV)
  | .MOD => some (arith_bin .MOD .MOD)
  | .POW => some pow
  | .CONCAT => some concat
  | .EQ => some eq
  | .LT => some lt
  | .LE => some le
  | .IDIV => some (arith_bin .IDIV .DIV)
  | .BAND => some (arith_bin .BAND .BAND)
  | .BOR => some (arith_bin .BOR .BOR)
  | .BXOR => some (arith_bin .BXOR .BXOR)
  | .SHL => some (shift_bin .SHL .LSH)
  | .SHR => some (shift_bin .SHR .RSH)
  | _ => none

/-- Embedding of `call(L)`; `self` is the stack value at index 1 and `args`
the values above it. The result is the list of returned values. -/
def call (E : Env) (L : lua_State) (self : LuaValue) (args : List LuaValue) :
    Res (List LuaValue) :=
  match self with
  | .cval fd =>
    if fd.ctype then (E.make_cdata fd.decl args).bind (fun r => .ok [r])
    else
      (metatype_check L .CALL self).bind (fun o =>
        match o with
        | some f => E.lua_call f (self :: args)
        | none =>
          if !fd.decl.callable then .error ("'" ++ E.serialize fd.decl ++ "' is not callable")
          else if fd.decl.closure && fd.cd.isNone then .error "bad callback"
          else E.call_cif fd args)
  | _ => .fault "tocdata on a value that is not a cdata"

/-- Embedding of `index_common(L, func)`; `self` and `key` are the stack
values at indices 1 and 2. The result is the pair (descriptor, address) that
`func` is called with. -/
def index_common (E : Env) (self key : LuaValue) : Res (c_type × Nat) :=
  match self with
  | .cval cd =>
    if cd.ctype then .error "'ctype' is not indexable"
    else
      match cd.decl with
      | .ptr base =>
        if E.alloc_size base = 0 then
          .error ("attempt to index an incomplete type '" ++ E.serialize cd.decl ++ "'")
        else
          (E.check_arith_size_t 2 key).bind (fun sidx =>
            .ok (base, (cd.val + sidx * E.alloc_size base % 2 ^ 64) % 2 ^ 64))
      | .array base =>
        if E.alloc_size base = 0 then
          .error ("attempt to index an incomplete type '" ++ E.serialize cd.decl ++ "'")
        else
          (E.check_arith_size_t 2 key).bind (fun sidx =>
            .ok (base, (cd.val + sidx * E.alloc_size base % 2 ^ 64) % 2 ^ 64))
      | .ref base => .ok (base, cd.val)
      | .record r =>
        (luaL_checkstring E 2 key).bind (fun fname =>
          match E.field_offset r fname with
          | none =>
            .error ("'" ++ E.serialize cd.decl ++ "' has no member named '" ++ fname ++ "'")
          | some fo => .ok (fo.2, E.storage_addr cd + fo.1))
      | _ => .error ("'" ++ E.serialize cd.decl ++ "' is not indexable")
  | _ => .fault "tocdata on a value that is not a cdata"

/-- Embedding of `cb_free(L)` on the stack value `self`; the result is the
new state and `self` after the call. -/
def cb_free (L : lua_State) (self : LuaValue) : Res (lua_State × LuaValue) :=
  (checkcdata 1 self).bind (fun cd =>
    if !cd.decl.closure then .error (arg_error 1 "not a callback")
    else
      match cd.cd with
      | none => .error "bad callback"
      | some k => (destroy_closure L cd k).bind (fun r => .ok (r.1, .cval r.2)))

/-- Embedding of `cb_set(L)` on the stack values `self` and `f`; the result
is the new state. Reading `fref` through released closure data is a fault.
`luaL_unref` clears the old registry slot and `luaL_ref` is modelled as
handing out a reference not used before. -/
def cb_set (L : lua_State) (self f : LuaValue) : Res lua_State :=
  (checkcdata 1 self).bind (fun cd =>
    if !cd.decl.closure then .error (arg_error 1 "not a callback")
    else
      match cd.cd with
      | none => .error "bad callback"
      | some k =>
        if !(lua_isfunction f) then .error (arg_error 2 "function expected")
        else
          match L.closures k with
          | none => .fault "closure data used after release"
          | some fref =>
            let ref : Int := (L.registry_refs : Int) + 1
            .ok { L with
              registry := fun i =>
                if i = ref then f
                else if i = fref ∧ 0 ≤ fref then LuaValue.nil
                else L.registry i,
              registry_refs := L.registry_refs + 1,
              closures := fun j => if j = k then some ref else L.closures j })

/-- Embedding of `index(L)` on the stack values `self` and `key`. The key
string of a callback is handed to `strcmp` before it is tested for null. -/
def index (E : Env) (L : lua_State) (self key : LuaValue) : Res LuaValue :=
  (metatype_check L .INDEX self).bind (fun o =>
    match o with
    | some f =>
      if lua_isfunction f then lua_call1 E f [self, key]
      else E.lua_gettable f key
    | none =>
      match self with
      | .cval cd =>
        if cd.decl.closure then
          match lua_tostring E key with
          | none => .fault "strcmp on a null key string"
          | some mname =>
            if mname = "free" then .ok (.cfunction .cb_free)
            else if mname = "set" then .ok (.cfunction .cb_set)
            else
              .error ("'" ++ E.serialize cd.decl ++ "' has no member named '"
                ++ mname ++ "'")
        else
          (index_common E self key).bind (fun r =>
            (E.to_lua r.1 r.2).bind (fun v =>
              match v with
              | some res => .ok res
              | none => .error "invalid C type"))
      | _ => .fault "tocdata on a value that is not a cdata")

end cdata_meta

namespace ffi_module

/-- Embedding of `check_ct(L, idx)`; the result is the descriptor returned
and the value left at `idx`, which is always a ctype. -/
def check_ct (E : Env) (v : LuaValue) : Res (c_type × LuaValue) :=
  match v with
  | .cval cd => if cd.ctype then .ok (cd.decl, v) else .ok (cd.decl, newctype cd.decl)
  | _ => (E.parse_type v).bind (fun t => .ok (t, newctype t))

/-- The flags tested by the `FIELD_CHECK` lines of `metatype_f`, in order,
for a given `LUA_VERSION_NUM`. -/
def field_checks (version : Nat) : List metatype_flag :=
  [.ADD, .SUB, .MUL, .DIV, .MOD, .POW, .UNM, .CONCAT, .LEN, .EQ, .LT, .LE,
    .INDEX, .NEWINDEX, .CALL, .GC, .TOSTRING]
  ++ (if version > 501 then
        [.PAIRS] ++ (if version = 502 then [.IPAIRS] else [])
        ++ (if version > 502 then [.IDIV, .BAND, .BOR, .BXOR, .BNOT, .SHL, .SHR] else [])
      else [])

/-- One `FIELD_CHECK(fname, flagn)` on the table `t`. -/
def FIELD_CHECK (t : String → LuaValue) (mflags : Nat) (flag : metatype_flag) : Nat :=
  if t (metafield_name flag) != LuaValue.nil then mflags ||| 2 ^ flag.pos else mflags

/-- Embedding of `metatype_f(L)` on the stack values `a1`, `a2`; the result
is the new state and the returned ctype. `luaL_ref` on `__ffi_metatypes`,
from which nothing is ever released, hands out the next integer. -/
def metatype_f (E : Env) (L : lua_State) (a1 a2 : LuaValue) : Res (lua_State × LuaValue) :=
  (check_ct E a1).bind (fun c =>
    match c.1 with
    | .record r =>
      if (L.metatype r.id).1 ≠ LUA_REFNIL then .error "cannot change a protected metatable"
      else
        match a2 with
        | .table tid =>
          let mflags := (field_checks E.LUA_VERSION_NUM).foldl (FIELD_CHECK (L.tables tid))
            (L.metatype r.id).2
          let ref : Int := (L.ffi_refs : Int) + 1
          .ok ({ L with
                  metatype := fun i => if i = r.id then (ref, mflags) else L.metatype i,
                  ffi_metatypes := fun i =>
                    if i = ref then some (L.tables tid) else L.ffi_metatypes i,
                  ffi_refs := L.ffi_refs + 1 },
               c.2)
        | _ => .error (arg_error 2 "table expected")
    | _ => .error (arg_error 1 "invalid C type"))

/-- A sequence of `metatype_f` calls run from state `L`; a call that raises
an error leaves the state as it was. -/
def metatype_f_calls (E : Env) (L : lua_State) : List (LuaValue × LuaValue) → lua_State
  | [] => L
  | c :: rest =>
    match metatype_f E L c.1 c.2 with
    | .ok r => metatype_f_calls E r.1 rest
    | _ => metatype_f_calls E L rest

/-- Embedding of `ref_f(L)` on the stack value `v`. -/
def ref_f (E : Env) (v : LuaValue) : Res LuaValue :=
  (checkcdata 1 v).bind (fun cd =>
    match cd.decl with
    | .ref _ => .ok v
    | _ => .ok (.cval { decl := .ref cd.decl, val := E.get_addr cd, ctype := false }))

/-- Embedding of `sizeof_f(L)` on the stack values `a1`, `a2` (`nil` for an
absent second argument); `none` when nothing is returned. A second argument
that is neither a number nor a value of this system reaches `tocdata`
unchecked. -/
def sizeof_f (E : Env) (a1 a2 : LuaValue) : Res (Option LuaValue) :=
  match (if iscdata a1 then testcdata a1 else none) with
  | some cd => .ok (some (.number (lua_Integer_of_size_t (E.cdata_value_size cd))))
  | none =>
    (check_ct E a1).bind (fun c =>
      let ct := c.1
      if E.vla ct then
        (match a2 with
          | .number isz => if isz < 0 then Res.ok none else Res.ok (some isz.toNat)
          | .string str =>
            if E.string_is_number str then
              (if E.string_to_number str < 0 then Res.ok none
               else Res.ok (some (E.string_to_number str).toNat))
            else Res.fault "tocdata on a value that is not a cdata"
          | .cval cd =>
            if !(E.integer cd.decl) then Res.error (arg_error 2 "number expected")
            else if E.is_unsigned cd.decl then
              (E.check_arith_size_t 2 a2).bind (fun sz => Res.ok (some sz))
            else
              (E.check_arith_llong 2 a2).bind (fun isz =>
                if isz < 0 then Res.ok none else Res.ok (some isz.toNat))
          | _ => Res.fault "tocdata on a value that is not a cdata").bind (fun osz =>
            match osz with
            | none => .ok none
            | some sz =>
              match ct.ptr_base with
              | none => .fault "ptr_base of a type without base"
              | some base =>
                .ok (some (.number (lua_Integer_of_size_t (E.alloc_size base * sz)))))
      else if E.unbounded ct then .ok none
      else .ok (some (.number (lua_Integer_of_size_t (E.alloc_size ct)))))

/-- The Lua API `luaL_typename` at a stack index (`none` for an index above
the top). A cdata or ctype is a userdata to Lua. -/
def luaL_typename : Option LuaValue → String
  | none => "no value"
  | some .nil => "nil"
  | some (.boolean _) => "boolean"
  | some (.number _) => "number"
  | some (.string _) => "string"
  | some (.table _) => "table"
  | some (.func _) => "function"
  | some (.cfunction _) => "function"
  | some (.userdata _) => "userdata"
  | some (.cval _) => "userdata"

/-- Embedding of `check_voidptr(L, idx)` on the stack `stack` (index 1 is its
head); the result is the address returned. The last message is built from
`luaL_typename(L, 1)`. -/
def check_voidptr (E : Env) (stack : List LuaValue) (idx : Nat) : Res Nat :=
  match stack[idx - 1]? with
  | some (.cval cd) =>
    if cd.ctype then .error (arg_error idx "cannot convert 'ctype' to 'void *'")
    else if cd.decl.type ≠ .PTR ∧ cd.decl.type ≠ .REF ∧ cd.decl.type ≠ .ARRAY then
      .error (arg_error idx ("cannot convert '" ++ E.serialize cd.decl ++ "' to 'void *'"))
    else .ok cd.val
  | some (.userdata id) => .ok (E.lua_touserdata id)
  | _ =>
    .error (arg_error idx ("cannot convert '" ++ luaL_typename stack[0]? ++ "' to 'void *'"))

/-- The source of a `memcpy`: an address, or the bytes of a Lua string. -/
inductive copy_src where
  | addr (p : Nat)
  | str (s : String)
  deriving DecidableEq, Repr

/-- The call `memcpy(dst, src, len)` that ends `copy_f`. -/
structure memcpy_call where
  dst : Nat
  src : copy_src
  len : Nat
  deriving DecidableEq, Repr

/-- The call `memset(dst, byte, len)` that ends `fill_f`. -/
structure memset_call where
  dst : Nat
  byte : Int
  len : Nat
  deriving DecidableEq, Repr

/-- Embedding of `copy_f(L)` on the stack `stack`; the result is the `memcpy`
it performs. A string or number at index 2 (`lua_isstring`) is copied from
its bytes; an absent length is read as `nil` by `check_arith`. -/
def copy_f (E : Env) (stack : List LuaValue) : Res memcpy_call :=
  (check_voidptr E stack 1).bind (fun dst =>
    match lua_tostring E (stack[1]?.getD .nil) with
    | some s =>
      if stack.length ≤ 2 then .ok { dst := dst, src := .str s, len := s.utf8ByteSize }
      else
        (E.check_arith_size_t 3 (stack[2]?.getD .nil)).bind (fun len =>
          .ok { dst := dst, src := .str s, len := len })
    | none =>
      (check_voidptr E stack 2).bind (fun src =>
        (E.check_arith_size_t 3 (stack[2]?.getD .nil)).bind (fun len =>
          .ok { dst := dst, src := .addr src, len := len })))

/-- The Lua API `luaL_optinteger(L, idx, 0)` on the value at `idx` (`none`
for an index above the top). -/
def luaL_optinteger (E : Env) (idx : Nat) : Option LuaValue → Res Int
  | none => .ok 0
  | some .nil => .ok 0
  | some (.number n) => .ok n
  | some (.string s) =>
    if E.string_is_number s then .ok (E.string_to_number s)
    else .error (arg_error idx "number expected")
  | some _ => .error (arg_error idx "number expected")

/-- Embedding of `fill_f(L)` on the stack `stack`; the result is the `memset`
it performs. -/
def fill_f (E : Env) (stack : List LuaValue) : Res memset_call :=
  (check_voidptr E stack 1).bind (fun dst =>
    (E.check_arith_size_t 2 (stack[1]?.getD .nil)).bind (fun len =>
      (luaL_optinteger E 3 stack[2]?).bind (fun byte =>
        .ok { dst := dst, byte := toSigned 32 (wrap 32 byte), len := len })))

end ffi_module

/-- Whether the operand `v` is a cdata whose record metatype capability
flags include `flag`. -/
def has_flag (L : lua_State) (flag : metatype_flag) (v : LuaValue) : Bool :=
  match testcdata v with
  | none => false
  | some _ =>
    match cdata_meta.metatype_getmt L v with
    | .ok m => m.2.testBit flag.pos
    | _ => false

/-- The override callable of the operand `v` for `flag`: the field of that
operator in the override table of its record metatype, when `v` is a cdata
whose capability flags include `flag` and the field is not `nil`. -/
def override_of (L : lua_State) (flag : metatype_flag) (v : LuaValue) : Option LuaValue :=
  match testcdata v with
  | none => none
  | some _ =>
    match cdata_meta.metatype_getmt L v with
    | .ok m =>
      if m.2.testBit flag.pos then metatype_getfield L m.1 (metafield_name flag) else none
    | _ => none

/-- The integer a value holds under an integer tag: the member of the union
that the tag selects; `none` for the other tags. -/
def tag_value (P : Platform) (t : c_expr_type) (v : c_value) : Option Int :=
  match t with
  | .INT => some v.i
  | .UINT => some v.u
  | .LONG => some (v.l P)
  | .ULONG => some (v.ul P)
  | .LLONG => some v.ll
  | .ULLONG => some v.ull
  | _ => none

/-- Tags that count as 64-bit unsigned on platform `P`: `ULLONG`, and `ULONG`
where `long` and `long long` are equally wide. -/
abbrev is_u64 (P : Platform) (t : c_expr_type) : Prop :=
  t = .ULLONG ∨ (t = .ULONG ∧ P.long_bits = 64)

/-- An LP64 platform (64-bit `long`) without floating conversions. -/
def lp64 : Platform := { long_bits := 64, fp_trunc := fun _ _ => 0 }

/-- An LLP64 platform (32-bit `long`) without floating conversions. -/
def llp64 : Platform := { long_bits := 32, fp_trunc := fun _ _ => 0 }

/-! ## A concrete environment for evaluating the metamethods -/

/-- Sizes of a sample descriptor service: an arithmetic primitive of code `n`
occupies `n` bytes (so `arith 4` plays `int` and `arith 1` plays `char`),
pointers and references occupy 8 bytes, every other type has size 0. -/
def sample_alloc_size : c_type → Nat
  | .arith code => code
  | .ptr _ => 8
  | .ref _ => 8
  | _ => 0

/-- Sample `check_arith<ptrdiff_t>`: Lua numbers convert, nothing else does. -/
def sample_check_arith (_idx : Nat) : LuaValue → Res Int
  | .number n => .ok n
  | _ => .error "number expected"

/-- Sample `check_arith_expr`: a Lua number is a `long long`, an arithmetic
cdata an `int` holding its storage. -/
def sample_check_arith_expr (_idx : Nat) : LuaValue → Res (c_expr_type × c_value)
  | .number n => .ok (.LLONG, { bits := wrap 64 n })
  | .cval cd =>
    if cd.decl.deref.is_arith then .ok (.INT, { bits := cd.val })
    else .error "number expected"
  | _ => .error "number expected"

/-- Sample evaluator: `EQ` compares the 64-bit members and yields a `BOOL`;
`LSH` shifts the 64-bit member of the left side and keeps its tag. -/
def sample_eval (op : c_expr_binop) (l r : c_expr_type × c_value) :
    Res (c_expr_type × c_value) :=
  match op with
  | .EQ => .ok (.BOOL, { bits := if l.2.ll = r.2.ll then 1 else 0 })
  | .LSH => .ok (l.1, { bits := l.2.bits % 2 ^ 64 * 2 ^ (r.2.bits % 64) % 2 ^ 64 })
  | _ => .error "unsupported operator"

/-- Sample `lua_call`: function 0 is the order-sensitive override
`function(x, y) return x.val < y.val end` on two cdata; function 1 returns
its arguments unchanged. -/
def sample_lua_call (f : LuaValue) (args : List LuaValue) : Res (List LuaValue) :=
  match f, args with
  | .func 0, [.cval x, .cval y] => .ok [.boolean (decide (x.val < y.val))]
  | .func 1, xs => .ok xs
  | _, _ => .error "attempt to call a value"

/-- Sample `parse_type`: the only declared names are `"struct rec7"`,
record 7, and `"int"`. -/
def sample_parse_type : LuaValue → Res c_type
  | .string "struct rec7" => .ok (.record { id := 7 })
  | .string "int" => .ok (.arith 4)
  | .string _ => .error "undeclared type"
  | _ => .error "string expected"

/-- The sample environment: an LP64 platform with the sample services. -/
def sample_env : Env where
  P := lp64
  alloc_size := sample_alloc_size
  is_same := fun s t _ => decide (s = t)
  serialize := fun _ => "T"
  lua_serialize := fun _ => "V"
  check_arith_ptrdiff_t := sample_check_arith
  check_arith_expr := sample_check_arith_expr
  eval := sample_eval
  make_cdata_arith := fun t v =>
    .ok (.cval { decl := .arith (if t = .BOOL then 1 else 8), val := v.bits % 2 ^ 64,
                 ctype := false })
  get_deref_addr := fun cd => cd.val
  lua_call := sample_lua_call
  string_is_number := fun _ => false
  LUA_VERSION_NUM := 503
  parse_type := sample_parse_type
  make_cdata := fun t _ => .ok (.cval { decl := t, val := 0, ctype := false })
  call_cif := fun _ args => .ok args
  to_lua := fun t addr => .ok (some (.cval { decl := .ref t, val := addr, ctype := false }))
  get_addr := fun cd => cd.val
  storage_addr := fun cd => cd.val
  cdata_value_size := fun cd => sample_alloc_size cd.decl
  check_arith_size_t := fun _ v =>
    match v with
    | .number n => .ok (wrap 64 n)
    | _ => .error "number expected"
  check_arith_llong := sample_check_arith
  integer := fun t => t.is_arith
  is_unsigned := fun _ => false
  vla := fun t => decide (t = .array (.arith 4))
  unbounded := fun t => decide (t = .array (.arith 1))
  field_offset := fun _ _ => none
  lua_gettable := fun _ _ => .ok .nil
  number_to_string := fun n => toString n
  string_to_number := fun _ => 0
  lua_touserdata := fun id => 4096 * (id + 1)

/-- A Lua state in which no record has a metatype. -/
def plain_state : lua_State where
  metatype := fun _ => (LUA_REFNIL, 0)
  ffi_metatypes := fun _ => none

/-- A Lua state in which record 7 has a metatype, registered under
reference 1, whose only field is `__lt`, bound to function 0. -/
def lt_state : lua_State where
  metatype := fun id => if id = 7 then (1, 2 ^ metatype_flag.LT.pos) else (LUA_REFNIL, 0)
  ffi_metatypes := fun mt =>
    if mt = 1 then some (fun name => if name = "__lt" then .func 0 else .nil) else none
  ffi_refs := 1

/-- A Lua state without metatypes in which table 0 has the single field
`__lt`, bound to function 0, and table 1 the single field `__call`, bound to
function 1. -/
def tbl_state : lua_State where
  metatype := fun _ => (LUA_REFNIL, 0)
  ffi_metatypes := fun _ => none
  tables := fun tid name =>
    if tid = 0 ∧ name = "__lt" then .func 0
    else if tid = 1 ∧ name = "__call" then .func 1
    else .nil

/-- The state after `metatype("struct rec7", table 0)` in `tbl_state`. -/
def tbl_state_registered : lua_State :=
  match ffi_module.metatype_f sample_env tbl_state (.string "struct rec7") (.table 0) with
  | .ok r => r.1
  | _ => tbl_state

/-- The state after `metatype("struct rec7", table 1)` in `tbl_state`:
record 7 has a `__call` override, function 1. -/
def call_state : lua_State :=
  match ffi_module.metatype_f sample_env tbl_state (.string "struct rec7") (.table 1) with
  | .ok r => r.1
  | _ => tbl_state

/-- A Lua state without metatypes in which the closure data at address 500
is live, with `fref` 3. -/
def closure_state : lua_State where
  metatype := fun _ => (LUA_REFNIL, 0)
  ffi_metatypes := fun _ => none
  closures := fun k => if k = 500 then some 3 else none

/-- A sample callback value: a closure function bound to the closure data at
address 500. -/
def sample_callback : cdata :=
  { decl := .func true, val := 9000, ctype := false, cd := some 500 }

/-- A sample `int *` value holding the address `p`. -/
def int_ptr (p : Nat) : LuaValue :=
  .cval { decl := .ptr (.arith 4), val := p, ctype := false }

/-- A sample `void *` value holding the address `p`; its pointee has size 0. -/
def void_ptr (p : Nat) : LuaValue :=
  .cval { decl := .ptr .void, val := p, ctype := false }

/-- A sample value of record 7 whose storage reads `n`. -/
def rec7 (n : Nat) : LuaValue :=
  .cval { decl := .record { id := 7 }, val := n, ctype := false }

/-! ## Theorems -/

theorem wrap_cast (x : Int) : ((wrap 64 x : Nat) : Int) = x % (2 : Int) ^ 64 := by
  unfold wrap
  exact Int.toNat_of_nonneg (Int.emod_nonneg _ (by norm_num))

theorem wrap_lt (x : Int) : wrap 64 x < 2 ^ 64 := by
  have h := wrap_cast x
  have h2 : x % (2 : Int) ^ 64 < (2 : Int) ^ 64 := Int.emod_lt_of_pos _ (by norm_num)
  have h3 : ((wrap 64 x : Nat) : Int) < (2 : Int) ^ 64 := by rw [h]; exact h2
  exact_mod_cast h3

theorem cast64_modEq (s : Bool) (x : Int) : cast64 s x ≡ x [ZMOD (2 : Int) ^ 64] := by
  unfold cast64 toSigned
  have hlt := wrap_lt x
  have hc := wrap_cast x
  rw [Nat.mod_eq_of_lt hlt]
  have hx : x % (2 : Int) ^ 64 ≡ x [ZMOD (2 : Int) ^ 64] := Int.mod_modEq x _
  cases s
  · simp only [Bool.false_eq_true, if_false]
    rw [hc]; exact hx
  · simp only [if_true]
    split
    · rw [hc]; exact hx
    · rw [hc]
      have : x % (2 : Int) ^ 64 - (2 : Int) ^ 64 ≡ x % (2 : Int) ^ 64 [ZMOD (2 : Int) ^ 64] := by
        unfold Int.ModEq
        rw [Int.sub_emod, Int.emod_self]
        simp
      exact this.trans hx

theorem cast64_congr (s : Bool) (x y : Int) (h : x ≡ y [ZMOD (2 : Int) ^ 64]) :
    cast64 s x = cast64 s y := by
  have hw : wrap 64 x = wrap 64 y := by
    unfold wrap
    rw [h]
  unfold cast64
  rw [hw]

theorem cast64_idem (s : Bool) (x : Int) : cast64 s (cast64 s x) = cast64 s x :=
  cast64_congr s _ _ (cast64_modEq s x)

theorem cast64_of_in_range (s : Bool) (x : Int) (h : in_range64 s x) : cast64 s x = x := by
  unfold in_range64 at h
  unfold cast64 toSigned
  have hlt := wrap_lt x
  have hc := wrap_cast x
  rw [Nat.mod_eq_of_lt hlt]
  cases s
  · simp only [Bool.false_eq_true, if_false] at h ⊢
    rw [hc]
    exact Int.emod_eq_of_lt h.1 h.2
  · simp only [if_true] at h ⊢
    have hlt2 : ((wrap 64 x : Nat) : Int) < (2 : Int) ^ 64 := by exact_mod_cast hlt
    split
    · rename_i h1
      have h1z : ((wrap 64 x : Nat) : Int) < (2 : Int) ^ 63 := by exact_mod_cast h1
      rw [hc] at h1z ⊢
      have := Int.emod_emod_of_dvd x (dvd_refl ((2 : Int) ^ 64))
      have hnn : 0 ≤ x % (2 : Int) ^ 64 := Int.emod_nonneg _ (by norm_num)
      have hdiv := Int.emod_add_ediv x ((2 : Int) ^ 64)
      omega
    · rename_i h1
      have h1z : ¬ ((wrap 64 x : Nat) : Int) < (2 : Int) ^ 63 := by exact_mod_cast h1
      rw [hc] at h1z hlt2 ⊢
      have hdiv := Int.emod_add_ediv x ((2 : Int) ^ 64)
      omega

/-- The loop of `powimp` computes `ret * base ^ exp` reduced to `T`. -/
theorem powimp_loop_eq (s : Bool) (exp : Nat) :
    ∀ (base ret : Int), cast64 s ret = ret →
      cdata_meta.powimp_loop s base exp ret = cast64 s (ret * base ^ exp) := by
  induction exp using Nat.strong_induction_on with
  | _ exp ih =>
    intro base ret hret
    rw [cdata_meta.powimp_loop]
    have hexp : exp = 2 * (exp / 2) + exp % 2 := (Nat.div_add_mod exp 2).symm
    by_cases hq : exp / 2 = 0
    · simp only [hq, dite_true]
      by_cases hr : exp % 2 = 1
      · have : exp = 1 := by omega
        simp [this]
      · have : exp = 0 := by omega
        simp [this, hret]
    · simp only [hq, dite_false]
      have hlt : exp / 2 < exp := by omega
      by_cases hr : exp % 2 = 1
      · simp only [hr, if_true]
        rw [ih _ hlt _ _ (cast64_idem s _)]
        apply cast64_congr
        have h1 := cast64_modEq s (ret * base)
        have h2 := (cast64_modEq s (base * base)).pow (exp / 2)
        have h3 := h1.mul h2
        refine h3.trans ?_
        have : ret * base * (base * base) ^ (exp / 2) = ret * base ^ exp := by
          conv_rhs => rw [hexp, hr]
          ring
        rw [this]
      · simp only [hr, if_false]
        rw [ih _ hlt _ _ hret]
        apply cast64_congr
        have h2 := (cast64_modEq s (base * base)).pow (exp / 2)
        have h3 := (Int.ModEq.refl ret).mul h2
        refine h3.trans ?_
        have hr0 : exp % 2 = 0 := by omega
        have : ret * (base * base) ^ (exp / 2) = ret * base ^ exp := by
          conv_rhs => rw [hexp, hr0]
          ring
        rw [this]

theorem cast64_one (s : Bool) : cast64 s 1 = 1 := by
  cases s <;> decide

theorem cast64_in_range (s : Bool) (x : Int) : in_range64 s (cast64 s x) := by
  unfold cast64 toSigned
  have hlt := wrap_lt x
  rw [Nat.mod_eq_of_lt hlt]
  have hlt2 : ((wrap 64 x : Nat) : Int) < (2 : Int) ^ 64 := by exact_mod_cast hlt
  have hnn : (0 : Int) ≤ ((wrap 64 x : Nat) : Int) := Int.ofNat_nonneg _
  cases s
  · simp only [in_range64, Bool.false_eq_true, if_false]
    exact ⟨hnn, hlt2⟩
  · simp only [in_range64, if_true]
    split
    · rename_i h1
      have h1z : ((wrap 64 x : Nat) : Int) < (2 : Int) ^ 63 := by exact_mod_cast h1
      constructor <;> omega
    · rename_i h1
      have h1z : ¬ ((wrap 64 x : Nat) : Int) < (2 : Int) ^ 63 := by exact_mod_cast h1
      constructor <;> omega

theorem set64_ll_zero (v : c_value) : (v.set64 0).ll = 0 := by
  unfold c_value.set64 c_value.ll toSigned
  have h0 : wrap 64 0 = 0 := by decide
  simp [h0]

/-- C1: after `promote_sides` both tags are equal; they are `ULLONG` exactly
when one of the input tags is 64-bit unsigned (`ULLONG`, or `ULONG` where
`long` is as wide as `long long`) and `LLONG` otherwise; hence both assertions
of `pow` hold and `pow` reaches one of its two `powimp` branches. -/
theorem promote_sides_tags (P : Platform) (lt rt : c_expr_type) (lv rv : c_value) :
    (cdata_meta.promote_sides P lt lv rt rv).1.1 = (cdata_meta.promote_sides P lt lv rt rv).2.1 ∧
    ((cdata_meta.promote_sides P lt lv rt rv).1.1 = c_expr_type.ULLONG ↔
      (is_u64 P lt ∨ is_u64 P rt)) ∧
    (¬ (is_u64 P lt ∨ is_u64 P rt) →
      (cdata_meta.promote_sides P lt lv rt rv).1.1 = c_expr_type.LLONG) ∧
    (∃ v, cdata_meta.pow_arith P lt lv rt rv =
      Res.ok ((cdata_meta.promote_sides P lt lv rt rv).1.1, v)) := by
  by_cases h64 : P.long_bits = 64
  · cases lt <;> cases rt <;>
      simp [cdata_meta.promote_sides, cdata_meta.promote_long, cdata_meta.promote_to_64bit,
        cdata_meta.pow_arith, is_u64, h64]
  · cases lt <;> cases rt <;>
      simp [cdata_meta.promote_sides, cdata_meta.promote_long, cdata_meta.promote_to_64bit,
        cdata_meta.pow_arith, is_u64, h64]

/-- C2: `powimp<T>(b, e)` is total and, for an exponent `e` in the range of
`T` that is non-negative, returns the value of type `T` congruent to `b ^ e`
modulo `2 ^ 64` (two's complement for the signed instantiation); in
particular `powimp(b, 0) = 1` and `powimp(2, 10) = 1024`. -/
theorem powimp_spec (T_signed : Bool) (b e : Int) (he : in_range64 T_signed e)
    (hnn : T_signed = true → 0 ≤ e) :
    (cdata_meta.powimp T_signed b e ≡ b ^ e.toNat [ZMOD (2 : Int) ^ 64] ∧
      in_range64 T_signed (cdata_meta.powimp T_signed b e)) ∧
    cdata_meta.powimp T_signed b 0 = 1 ∧
    cdata_meta.powimp true 2 10 = 1024 := by
  have hgen : ∀ (s : Bool) (x y : Int), 0 ≤ y →
      cdata_meta.powimp s x y = cast64 s (x ^ y.toNat) := by
    intro s x y hy
    unfold cdata_meta.powimp
    have : ¬ y < 0 := by omega
    simp only [this, decide_False, Bool.and_false, Bool.false_eq_true, if_false]
    rw [powimp_loop_eq s _ _ _ (cast64_one s)]
    simp
  have he0 : 0 ≤ e := by
    cases T_signed
    · simp only [in_range64, Bool.false_eq_true, if_false] at he
      exact he.1
    · exact hnn rfl
  refine ⟨?_, ?_, ?_⟩
  · rw [hgen T_signed b e he0]
    exact ⟨cast64_modEq _ _, cast64_in_range _ _⟩
  · rw [hgen T_signed b 0 (le_refl 0)]
    simp [cast64_one]
  · rw [hgen true 2 10 (by norm_num)]
    decide

/-- Witness of `powimp_spec`: the signed instantiation at base 2, exponent 10. -/
theorem powimp_spec_witness :
    (cdata_meta.powimp true 2 10 ≡ 2 ^ (10 : Int).toNat [ZMOD (2 : Int) ^ 64] ∧
      in_range64 true (cdata_meta.powimp true 2 10)) ∧
    cdata_meta.powimp true 2 0 = 1 ∧
    cdata_meta.powimp true 2 10 = 1024 :=
  powimp_spec true 2 10 (by decide) (by decide)


theorem promote_sides_tag_eq (P : Platform) (lt rt : c_expr_type) (lv rv : c_value) :
    (cdata_meta.promote_sides P lt lv rt rv).1.1 = (cdata_meta.promote_sides P lt lv rt rv).2.1 := by
  unfold cdata_meta.promote_sides cdata_meta.promote_to_64bit
  simp only
  split <;> rfl

/-- C3: when both promoted operands of `pow` are signed 64-bit and the
promoted exponent is negative, `pow` (with no `__pow` override) builds its
result from the tag `LLONG` and a value whose `long long` member is 0,
whatever the base. -/
theorem pow_negative_exponent (E : Env) (L : lua_State) (a b : LuaValue)
    (l r : c_expr_type × c_value)
    (hmt : cdata_meta.binop_try_mt E L .POW (testcdata a) (testcdata b) a b = .ok none)
    (ha : E.check_arith_expr 1 a = .ok l) (hb : E.check_arith_expr 2 b = .ok r)
    (hl : (cdata_meta.promote_sides E.P l.1 l.2 r.1 r.2).1.1 = c_expr_type.LLONG)
    (hr : (cdata_meta.promote_sides E.P l.1 l.2 r.1 r.2).2.1 = c_expr_type.LLONG)
    (hneg : (cdata_meta.promote_sides E.P l.1 l.2 r.1 r.2).2.2.ll < 0) :
    ∃ v : c_value, v.ll = 0 ∧
      cdata_meta.pow_arith E.P l.1 l.2 r.1 r.2 = .ok (c_expr_type.LLONG, v) ∧
      cdata_meta.pow E L a b = E.make_cdata_arith c_expr_type.LLONG v := by
  refine ⟨(cdata_meta.promote_sides E.P l.1 l.2 r.1 r.2).1.2.set64 0, set64_ll_zero _, ?_, ?_⟩
  · unfold cdata_meta.pow_arith
    simp only [hl, hr, ne_eq, not_true_eq_false, if_false]
    simp [cdata_meta.powimp, hneg]
  · unfold cdata_meta.pow
    simp only [hmt, ha, hb, Res.bind]
    unfold cdata_meta.pow_arith
    simp only [hl, hr, ne_eq, not_true_eq_false, if_false]
    simp [cdata_meta.powimp, hneg]

/-- Witness of `pow_negative_exponent`: `pow(2, -1)` on two Lua numbers. -/
theorem pow_negative_exponent_witness :
    ∃ v : c_value, v.ll = 0 ∧
      cdata_meta.pow_arith sample_env.P c_expr_type.LLONG { bits := wrap 64 2 }
        c_expr_type.LLONG { bits := wrap 64 (-1) } = .ok (c_expr_type.LLONG, v) ∧
      cdata_meta.pow sample_env plain_state (.number 2) (.number (-1)) =
        sample_env.make_cdata_arith c_expr_type.LLONG v :=
  pow_negative_exponent sample_env plain_state (.number 2) (.number (-1))
    (c_expr_type.LLONG, { bits := wrap 64 2 }) (c_expr_type.LLONG, { bits := wrap 64 (-1) })
    (by rfl) (by rfl) (by rfl) (by rfl) (by rfl) (by decide)

theorem wrap_of_range (x : Int) (h0 : 0 ≤ x) (h1 : x < (2 : Int) ^ 64) :
    ((wrap 64 x : Nat) : Int) = x := by
  rw [wrap_cast]
  exact Int.emod_eq_of_lt h0 h1

theorem toSigned_of_small (n : Nat) (h : n < 2 ^ 63) : toSigned 64 n = (n : Int) := by
  unfold toSigned
  have h64 : n < 2 ^ 64 := by omega
  rw [Nat.mod_eq_of_lt h64]
  have h63 : n < 2 ^ (64 - 1) := h
  rw [if_pos h63]

/-- What `add` does for a pointer on the left, whatever the pointee size:
the integer operand is added to the address as a byte count. -/
theorem add_pointer_left_bytes (E : Env) (L : lua_State) (a b : LuaValue)
    (base : c_type) (p : Nat) (ct : Bool) (e : Option Nat) (d : Int)
    (ha : testcdata a = some { decl := .ptr base, val := p, ctype := ct, cd := e })
    (hmt : cdata_meta.binop_try_mt E L .ADD (testcdata a) (testcdata b) a b = .ok none)
    (hd : E.check_arith_ptrdiff_t 2 b = .ok d) :
    cdata_meta.add E L a b =
      .ok (.cval { decl := .ptr base, val := wrap 64 ((p : Int) + d), ctype := false }) := by
  unfold cdata_meta.add
  simp only [hmt]
  simp only [ha, hd, Res.bind]

/-- What `sub` does for two pointers to the same pointee type whose
difference is a non-negative multiple `k * s` of the pointee size `s > 0`:
the element count `k`. -/
theorem sub_pointers_forward (E : Env) (L : lua_State) (a b : LuaValue)
    (base1 base2 : c_type) (p q : Nat) (ct1 ct2 : Bool) (e1 e2 : Option Nat) (k : Nat)
    (ha : testcdata a = some { decl := .ptr base1, val := p, ctype := ct1, cd := e1 })
    (hb : testcdata b = some { decl := .ptr base2, val := q, ctype := ct2, cd := e2 })
    (hmt : cdata_meta.binop_try_mt E L .SUB (testcdata a) (testcdata b) a b = .ok none)
    (hs : 0 < E.alloc_size base1)
    (hsame : E.is_same base1 base2 true = true)
    (hk : p = q + k * E.alloc_size base1) (hsmall : k * E.alloc_size base1 < 2 ^ 63) :
    cdata_meta.sub E L a b = .ok (.number (k : Int)) := by
  have hne : E.alloc_size base1 ≠ 0 := by omega
  have hpq : ((p : Int) - (q : Int)) = ((k * E.alloc_size base1 : Nat) : Int) := by
    rw [hk]; push_cast; ring
  have hdiff : ptrdiff_t_sub p q = ((k * E.alloc_size base1 : Nat) : Int) := by
    unfold ptrdiff_t_sub
    rw [hpq]
    have hw := wrap_of_range ((k * E.alloc_size base1 : Nat) : Int) (Int.ofNat_nonneg _)
      (by have : k * E.alloc_size base1 < 2 ^ 64 := by omega
          exact_mod_cast this)
    have hw2 : wrap 64 ((k * E.alloc_size base1 : Nat) : Int) = k * E.alloc_size base1 := by
      exact_mod_cast hw
    rw [hw2, toSigned_of_small _ hsmall]
  have hquot : toSigned 64 (wrap 64 ((k * E.alloc_size base1 : Nat) : Int) / E.alloc_size base1)
      = (k : Int) := by
    have hw := wrap_of_range ((k * E.alloc_size base1 : Nat) : Int) (Int.ofNat_nonneg _)
      (by have : k * E.alloc_size base1 < 2 ^ 64 := by omega
          exact_mod_cast this)
    have hw2 : wrap 64 ((k * E.alloc_size base1 : Nat) : Int) = k * E.alloc_size base1 := by
      exact_mod_cast hw
    rw [hw2, Nat.mul_div_cancel _ hs]
    have hkle : k ≤ k * E.alloc_size base1 := Nat.le_mul_of_pos_right k hs
    exact toSigned_of_small k (by omega)
  unfold cdata_meta.sub
  simp only [hmt]
  simp only [ha, hb, Res.bind, hne, if_false, hsame, Bool.not_true, Bool.false_eq_true,
    hdiff, hquot]

/-- What `sub` does for two pointers whose pointee types differ under
qualifier-relaxed equality: an error. -/
theorem sub_pointers_mismatch (E : Env) (L : lua_State) (a b : LuaValue)
    (base1 base2 : c_type) (p q : Nat) (ct1 ct2 : Bool) (e1 e2 : Option Nat)
    (ha : testcdata a = some { decl := .ptr base1, val := p, ctype := ct1, cd := e1 })
    (hb : testcdata b = some { decl := .ptr base2, val := q, ctype := ct2, cd := e2 })
    (hmt : cdata_meta.binop_try_mt E L .SUB (testcdata a) (testcdata b) a b = .ok none)
    (hdiff : E.is_same base1 base2 true = false) :
    ∃ msg, cdata_meta.sub E L a b = .error msg := by
  unfold cdata_meta.sub
  simp only [hmt]
  simp only [ha, hb, Res.bind, hdiff]
  by_cases hz : E.alloc_size base1 = 0
  · exact ⟨"unknown C type size", by simp [hz]⟩
  · exact ⟨"cannot convert '" ++ E.serialize (.ptr base2) ++ "' to '"
      ++ E.serialize (.ptr base1) ++ "'", by simp [hz]⟩

/-- What `le` does when neither operand has `__le` and the first operand has
a `__lt` override `f`: it calls `f` on the stack contents `(a, b)`, in that
order, and negates the truthiness of the result. -/
theorem le_calls_stack_order (E : Env) (L : lua_State) (a b : LuaValue)
    (c1 c2 : cdata) (f : LuaValue)
    (ha : testcdata a = some c1) (hb : testcdata b = some c2)
    (hle1 : cdata_meta.metatype_check L .LE a = .ok none)
    (hle2 : cdata_meta.metatype_check L .LE b = .ok none)
    (hlt : cdata_meta.metatype_check L .LT a = .ok (some f)) :
    cdata_meta.le E L a b =
      (lua_call1 E f [a, b]).bind (fun r => .ok (.boolean (!(lua_toboolean r)))) := by
  unfold cdata_meta.le cdata_meta.binop_try_mt
  simp only [ha, hb, Option.isSome_some, if_true, hle1, hle2, hlt, Res.bind]
  cases lua_call1 E f [a, b] <;> rfl

/-- C4 (the code at the failing input): with 4-byte pointees and no `__add`
override, `add` moves an `int *` at address 1000 by 5 to address 1005 in
both operand orders, not to the scaled address 1000 + 5 * 4. -/
theorem add_pointer_not_scaled :
    sample_env.alloc_size (c_type.arith 4) = 4 ∧
    cdata_meta.add sample_env plain_state (int_ptr 1000) (.number 5) = .ok (int_ptr 1005) ∧
    cdata_meta.add sample_env plain_state (.number 5) (int_ptr 1000) = .ok (int_ptr 1005) ∧
    int_ptr 1005 ≠ int_ptr (1000 + 5 * 4) := by
  refine ⟨rfl, rfl, rfl, ?_⟩
  decide

/-- C5 (the code at the failing input): two `int *` values four elements
apart yield 4 in the forward order, but in the reverse order the quotient is
taken on the unsigned bit pattern of the difference and yields
4611686018427387900 instead of -4; pointers to different pointee types are
rejected. -/
theorem sub_pointers_reverse_order :
    cdata_meta.sub sample_env plain_state (int_ptr 1016) (int_ptr 1000) = .ok (.number 4) ∧
    cdata_meta.sub sample_env plain_state (int_ptr 1000) (int_ptr 1016) =
      .ok (.number 4611686018427387900) ∧
    LuaValue.number 4611686018427387900 ≠ LuaValue.number (-4) ∧
    cdata_meta.sub sample_env plain_state (int_ptr 1016)
        (.cval { decl := .ptr (.arith 1), val := 1000, ctype := false }) =
      .error "cannot convert 'T' to 'T'" := by
  refine ⟨rfl, rfl, ?_, rfl⟩
  decide

/-- C6 (the code at the failing input): with a pointee of size 0 and no
override, `sub` raises "unknown C type size" but `add` raises nothing and
returns the pointer moved by one byte, in both operand orders. -/
theorem add_pointer_zero_size :
    sample_env.alloc_size c_type.void = 0 ∧
    cdata_meta.add sample_env plain_state (void_ptr 1000) (.number 1) = .ok (void_ptr 1001) ∧
    cdata_meta.add sample_env plain_state (.number 1) (void_ptr 1000) = .ok (void_ptr 1001) ∧
    cdata_meta.sub sample_env plain_state (void_ptr 1000) (.number 1) =
      .error "unknown C type size" ∧
    cdata_meta.sub sample_env plain_state (void_ptr 1000) (void_ptr 1000) =
      .error "unknown C type size" :=
  ⟨rfl, rfl, rfl, rfl, rfl⟩

/-- C7 (counterexample): for an `int *` at address 1000 and the integer 2,
`sub` yields the plain integer 249, not an `int *` at address 1000 - 2 * 4. -/
theorem sub_pointer_integer_counterexample :
    sample_env.alloc_size (c_type.arith 4) = 4 ∧
    cdata_meta.sub sample_env plain_state (int_ptr 1000) (.number 2) = .ok (.number 249) ∧
    cdata_meta.sub sample_env plain_state (int_ptr 1000) (.number 2) ≠
      .ok (int_ptr (1000 - 2 * 4)) := by
  refine ⟨rfl, rfl, ?_⟩
  decide

/-- C7 (amended): for a pointer `p` whose pointee has size `s > 0`, with no
`__sub` override and an integer operand `n` (not a pointer) with
`n ≤ address(p)` and `address(p) - n < 2 ^ 63`, `sub(p, n)` reads `n` as an
address and yields the plain integer `(address(p) - n) / s`. -/
theorem sub_pointer_integer (E : Env) (L : lua_State) (a b : LuaValue)
    (base : c_type) (p : Nat) (ct : Bool) (e : Option Nat) (d : Int)
    (ha : testcdata a = some { decl := .ptr base, val := p, ctype := ct, cd := e })
    (hb : ∀ c2, testcdata b = some c2 → c2.decl.type ≠ c_builtin.PTR)
    (hmt : cdata_meta.binop_try_mt E L .SUB (testcdata a) (testcdata b) a b = .ok none)
    (hs : 0 < E.alloc_size base)
    (hd : E.check_arith_ptrdiff_t 2 b = .ok d)
    (h1 : d ≤ (p : Int)) (h2 : (p : Int) - d < (2 : Int) ^ 63) :
    cdata_meta.sub E L a b =
      .ok (.number (((p : Int) - d) / (E.alloc_size base : Int))) := by
  have hne : E.alloc_size base ≠ 0 := by omega
  have hdiff : ptrdiff_t_sub p (wrap 64 d) = (p : Int) - d := by
    unfold ptrdiff_t_sub
    have hw : ((p : Int) - ((wrap 64 d : Nat) : Int)) ≡ (p : Int) - d [ZMOD (2 : Int) ^ 64] := by
      have : ((wrap 64 d : Nat) : Int) ≡ d [ZMOD (2 : Int) ^ 64] := by
        rw [wrap_cast]; exact Int.mod_modEq d _
      exact (Int.ModEq.refl _).sub this
    have hcast := cast64_congr true _ _ hw
    unfold cast64 at hcast
    simp only [if_true] at hcast
    rw [hcast]
    have := cast64_of_in_range true ((p : Int) - d) (by
      simp only [in_range64, if_true]
      constructor <;> omega)
    unfold cast64 at this
    simpa using this
  have hquot : toSigned 64 (wrap 64 ((p : Int) - d) / E.alloc_size base) =
      ((p : Int) - d) / (E.alloc_size base : Int) := by
    have hw := wrap_of_range ((p : Int) - d) (by omega) (by omega)
    have hlt : wrap 64 ((p : Int) - d) < 2 ^ 63 := by
      have : ((wrap 64 ((p : Int) - d) : Nat) : Int) < (2 : Int) ^ 63 := by rw [hw]; exact h2
      exact_mod_cast this
    have hle : wrap 64 ((p : Int) - d) / E.alloc_size base ≤ wrap 64 ((p : Int) - d) :=
      Nat.div_le_self _ _
    rw [toSigned_of_small _ (by omega)]
    rw [Int.natCast_div, hw]
  unfold cdata_meta.sub
  simp only [hmt]
  simp only [ha, Res.bind, hne, if_false]
  cases hb2 : testcdata b with
  | none => simp only [hd, hdiff, hquot]
  | some c2 =>
    have hnp := hb c2 hb2
    obtain ⟨decl, val, ctp⟩ := c2
    cases decl <;> simp_all [c_type.type, Res.bind]

/-- Witness of `sub_pointer_integer`: an `int *` at address 1000 minus 2. -/
theorem sub_pointer_integer_witness :
    cdata_meta.sub sample_env plain_state (int_ptr 1000) (.number 2) =
      .ok (.number ((((1000 : Nat) : Int) - 2) / (sample_env.alloc_size (c_type.arith 4) : Int))) :=
  sub_pointer_integer sample_env plain_state (int_ptr 1000) (.number 2)
    (c_type.arith 4) 1000 false none 2 rfl (by intro c2 h; cases h) rfl (by decide) rfl
    (by decide) (by decide)

/-- C8: when no `__eq` override applies and at least one operand is not a
cdata or ctype of this system, `eq` returns false. -/
theorem eq_non_system (E : Env) (L : lua_State) (a b : LuaValue)
    (hmt : cdata_meta.binop_try_mt E L .EQ (testcdata a) (testcdata b) a b = .ok none)
    (h : a.iscval = false ∨ b.iscval = false) :
    cdata_meta.eq E L a b = .ok (.boolean false) := by
  unfold cdata_meta.eq
  simp only [hmt, Res.bind]
  rcases h with h | h
  · cases a <;> simp_all [LuaValue.iscval, testcdata]
  · cases b <;> simp_all [LuaValue.iscval, testcdata]

/-- Witness of `eq_non_system`: a Lua number against an `int *`. -/
theorem eq_non_system_witness :
    cdata_meta.eq sample_env plain_state (.number 1000) (int_ptr 1000) = .ok (.boolean false) :=
  eq_non_system sample_env plain_state (.number 1000) (int_ptr 1000) rfl (Or.inl rfl)

/-- C9: for two cdata values with no `__eq` override, `eq` returns the
comparison of the two dereferenced addresses, and no error, when the
dereferenced type of either is not arithmetic; otherwise its outcome is that
of the evaluator's `EQ` on the two operands after `promote_sides`, read as a
boolean, and no address is consulted. -/
theorem eq_cdata (E : Env) (L : lua_State) (a b : LuaValue) (c1 c2 : cdata)
    (ha : testcdata a = some c1) (hb : testcdata b = some c2)
    (hmt : cdata_meta.binop_try_mt E L .EQ (testcdata a) (testcdata b) a b = .ok none) :
    cdata_meta.eq E L a b =
      if c1.decl.deref.is_arith = false ∨ c2.decl.deref.is_arith = false then
        .ok (.boolean (E.get_deref_addr c1 == E.get_deref_addr c2))
      else
        (E.check_arith_expr 1 a).bind (fun l =>
          (E.check_arith_expr 2 b).bind (fun r =>
            (E.eval .EQ (cdata_meta.promote_sides E.P l.1 l.2 r.1 r.2).1
                (cdata_meta.promote_sides E.P l.1 l.2 r.1 r.2).2).bind (fun res =>
              if res.1 ≠ c_expr_type.BOOL then
                .fault "assert(retp == ast::c_expr_type::BOOL)"
              else .ok (.boolean res.2.b)))) := by
  unfold cdata_meta.eq
  simp only [hmt]
  simp only [ha, hb, Res.bind]
  by_cases h : c1.decl.deref.is_arith = false ∨ c2.decl.deref.is_arith = false
  · rw [if_pos h]
    rcases h with h | h <;> simp [h]
  · rw [if_neg h]
    have h1 : c1.decl.deref.is_arith = true := by
      cases hc : c1.decl.deref.is_arith <;> simp_all
    have h2 : c2.decl.deref.is_arith = true := by
      cases hc : c2.decl.deref.is_arith <;> simp_all
    simp only [h1, h2, Bool.not_true, Bool.or_self, Bool.false_eq_true, if_false]
    unfold cdata_meta.arith_64bit_cmp cdata_meta.arith_64bit_base
    cases E.check_arith_expr 1 a <;> simp only [Res.bind]
    cases E.check_arith_expr 2 b <;> simp only [Res.bind]

/-- Witness of `eq_cdata`: two `int *` values are compared by address. -/
theorem eq_cdata_witness :
    cdata_meta.eq sample_env plain_state (int_ptr 1000) (int_ptr 1000) = .ok (.boolean true) :=
  eq_cdata sample_env plain_state (int_ptr 1000) (int_ptr 1000)
    { decl := .ptr (.arith 4), val := 1000, ctype := false }
    { decl := .ptr (.arith 4), val := 1000, ctype := false } rfl rfl rfl

/-- Equality of two arithmetic cdata holding 5 and 6, then 5 and 5: the
outcome is the evaluator's verdict on the promoted values. -/
theorem eq_cdata_arith_example :
    cdata_meta.eq sample_env plain_state
      (.cval { decl := .arith 4, val := 5, ctype := false })
      (.cval { decl := .arith 4, val := 6, ctype := false }) = .ok (.boolean false) ∧
    cdata_meta.eq sample_env plain_state
      (.cval { decl := .arith 4, val := 5, ctype := false })
      (.cval { decl := .arith 4, val := 5, ctype := false }) = .ok (.boolean true) :=
  ⟨rfl, rfl⟩

/-- C10 (the code at the failing input): record 7 has a `__lt` override
`f` and no `__le`; `f(b, a)` is false for `a = rec7 1`, `b = rec7 2`, so
`not f(b, a)` is true, but `le(a, b)` calls `f(a, b)`, which is true, and
returns false. -/
theorem le_lt_override_not_swapped :
    cdata_meta.metatype_check lt_state .LE (rec7 1) = .ok none ∧
    cdata_meta.metatype_check lt_state .LE (rec7 2) = .ok none ∧
    cdata_meta.metatype_check lt_state .LT (rec7 1) = .ok (some (.func 0)) ∧
    lua_call1 sample_env (.func 0) [rec7 2, rec7 1] = .ok (.boolean false) ∧
    lua_call1 sample_env (.func 0) [rec7 1, rec7 2] = .ok (.boolean true) ∧
    cdata_meta.le sample_env lt_state (rec7 1) (rec7 2) = .ok (.boolean false) :=
  ⟨rfl, rfl, rfl, rfl, rfl, rfl⟩


/-! ### Metatype registration -/

theorem metatype_f_ok_inv (E : Env) (L L1 : lua_State) (a1 a2 r1 : LuaValue)
    (hok : ffi_module.metatype_f E L a1 a2 = .ok (L1, r1)) :
    ∃ (r : c_record) (s : LuaValue) (tid : Nat),
      ffi_module.check_ct E a1 = .ok (.record r, s) ∧
      (L.metatype r.id).1 = LUA_REFNIL ∧ a2 = .table tid ∧
      (L1.metatype r.id).1 = (L.ffi_refs : Int) + 1 ∧
      ∀ i, i ≠ r.id → L1.metatype i = L.metatype i := by
  unfold ffi_module.metatype_f at hok
  cases hc : ffi_module.check_ct E a1 with
  | error m => simp [hc, Res.bind] at hok
  | fault w => simp [hc, Res.bind] at hok
  | ok c =>
    obtain ⟨t, s⟩ := c
    simp only [hc, Res.bind] at hok
    cases t with
    | record r =>
      simp only at hok
      by_cases hreg : (L.metatype r.id).1 = LUA_REFNIL
      · simp only [hreg, ne_eq, not_true_eq_false, if_false] at hok
        cases a2 with
        | table tid =>
          simp only [Res.ok.injEq, Prod.mk.injEq] at hok
          obtain ⟨hL, _⟩ := hok
          refine ⟨r, s, tid, rfl, hreg, rfl, ?_, ?_⟩
          · rw [← hL]; simp
          · intro i hi
            rw [← hL]; simp [hi]
        | _ => simp at hok
      · simp [hreg] at hok
    | _ => simp at hok

theorem metatype_f_preserves (E : Env) (L L1 : lua_State) (a1 a2 r1 : LuaValue) (id : Nat)
    (hreg : (L.metatype id).1 ≠ LUA_REFNIL)
    (hok : ffi_module.metatype_f E L a1 a2 = .ok (L1, r1)) :
    L1.metatype id = L.metatype id := by
  obtain ⟨r, s, tid, _, hnil, _, _, hother⟩ := metatype_f_ok_inv E L L1 a1 a2 r1 hok
  apply hother
  intro h
  rw [h] at hreg
  exact hreg hnil

theorem metatype_f_calls_preserve (E : Env) (id : Nat) (later : List (LuaValue × LuaValue)) :
    ∀ (L : lua_State), (L.metatype id).1 ≠ LUA_REFNIL →
      (ffi_module.metatype_f_calls E L later).metatype id = L.metatype id := by
  induction later with
  | nil => intro L _; rfl
  | cons c rest ih =>
    intro L hreg
    unfold ffi_module.metatype_f_calls
    cases hc : ffi_module.metatype_f E L c.1 c.2 with
    | ok r =>
      obtain ⟨L1, r1⟩ := r
      simp only
      have hp := metatype_f_preserves E L L1 c.1 c.2 r1 id hreg hc
      rw [ih L1 (by rw [hp]; exact hreg), hp]
    | error m => simp only; exact ih L hreg
    | fault w => simp only; exact ih L hreg

theorem metatype_f_registered_error (E : Env) (L : lua_State) (b1 b2 s : LuaValue) (id : Nat)
    (hreg : (L.metatype id).1 ≠ LUA_REFNIL)
    (hR : ffi_module.check_ct E b1 = .ok (.record { id := id }, s)) :
    ffi_module.metatype_f E L b1 b2 = .error "cannot change a protected metatable" := by
  unfold ffi_module.metatype_f
  simp [hR, Res.bind, hreg]

/-- C11: metatype registration is append-only. Once `metatype_f` has
succeeded for a record type `R`, the registration of `R` is a reference other
than `LUA_REFNIL`; after any sequence of further `metatype_f` calls the
reference and the capability flags of `R` are what they were, and every call
on `R`, with any second argument, raises "cannot change a protected
metatable". A call on a type that is not a record raises the argument error
"invalid C type". -/
theorem metatype_f_append_only (E : Env) (L L1 : lua_State) (a1 a2 r1 s : LuaValue) (id : Nat)
    (hR : ffi_module.check_ct E a1 = .ok (.record { id := id }, s))
    (hok : ffi_module.metatype_f E L a1 a2 = .ok (L1, r1)) :
    (L1.metatype id).1 ≠ LUA_REFNIL ∧
    (∀ (later : List (LuaValue × LuaValue)),
      (ffi_module.metatype_f_calls E L1 later).metatype id = L1.metatype id ∧
      ∀ (b1 b2 s2 : LuaValue),
        ffi_module.check_ct E b1 = .ok (.record { id := id }, s2) →
        ffi_module.metatype_f E (ffi_module.metatype_f_calls E L1 later) b1 b2 =
          .error "cannot change a protected metatable") ∧
    (∀ (L0 : lua_State) (b1 b2 s2 : LuaValue) (t : c_type),
      ffi_module.check_ct E b1 = .ok (t, s2) → t.type ≠ c_builtin.RECORD →
      ffi_module.metatype_f E L0 b1 b2 = .error (arg_error 1 "invalid C type")) := by
  have hreg : (L1.metatype id).1 ≠ LUA_REFNIL := by
    obtain ⟨r, s', tid, hct, _, _, href, _⟩ := metatype_f_ok_inv E L L1 a1 a2 r1 hok
    rw [hR] at hct
    simp only [Res.ok.injEq, Prod.mk.injEq, c_type.record.injEq] at hct
    obtain ⟨hr, _⟩ := hct
    have hid : r.id = id := by rw [← hr]
    rw [hid] at href
    rw [href]
    unfold LUA_REFNIL
    omega
  refine ⟨hreg, ?_, ?_⟩
  · intro later
    have hp := metatype_f_calls_preserve E id later L1 hreg
    refine ⟨hp, ?_⟩
    intro b1 b2 s2 hb
    exact metatype_f_registered_error E _ b1 b2 s2 id (by rw [hp]; exact hreg) hb
  · intro L0 b1 b2 s2 t hb ht
    unfold ffi_module.metatype_f
    simp only [hb, Res.bind]
    cases t <;> simp_all [c_type.type]

/-- Witness of `metatype_f_append_only`: record 7 is registered with table 0
in `tbl_state`; a later registration of `int` is rejected, and so is a second
registration of record 7, with table 1. -/
theorem metatype_f_append_only_witness :
    (tbl_state_registered.metatype 7).1 ≠ LUA_REFNIL ∧
    (∀ (later : List (LuaValue × LuaValue)),
      (ffi_module.metatype_f_calls sample_env tbl_state_registered later).metatype 7 =
        tbl_state_registered.metatype 7 ∧
      ∀ (b1 b2 s2 : LuaValue),
        ffi_module.check_ct sample_env b1 = .ok (.record { id := 7 }, s2) →
        ffi_module.metatype_f sample_env
            (ffi_module.metatype_f_calls sample_env tbl_state_registered later) b1 b2 =
          .error "cannot change a protected metatable") ∧
    (∀ (L0 : lua_State) (b1 b2 s2 : LuaValue) (t : c_type),
      ffi_module.check_ct sample_env b1 = .ok (t, s2) → t.type ≠ c_builtin.RECORD →
      ffi_module.metatype_f sample_env L0 b1 b2 = .error (arg_error 1 "invalid C type")) :=
  metatype_f_append_only sample_env tbl_state tbl_state_registered
    (.string "struct rec7") (.table 0) (newctype (.record { id := 7 }))
    (newctype (.record { id := 7 })) 7 rfl rfl

/-- The registration of record 7 in `tbl_state`: reference 1 and the flag of
`__lt`; a second registration and a registration of `int` are rejected. -/
theorem metatype_f_example :
    tbl_state_registered.metatype 7 = (1, 2 ^ metatype_flag.LT.pos) ∧
    ffi_module.metatype_f sample_env tbl_state_registered (.string "struct rec7") (.table 1) =
      .error "cannot change a protected metatable" ∧
    ffi_module.metatype_f sample_env tbl_state (.string "int") (.table 1) =
      .error "bad argument #1 (invalid C type)" :=
  ⟨rfl, rfl, rfl⟩

/-! ### Callbacks -/

theorem closure_kind (t : c_type) (h : t.closure = true) :
    t.callable = true ∧
    ∀ (L : lua_State) (v : Nat) (ct : Bool) (e : Option Nat) (flag : metatype_flag),
      cdata_meta.metatype_check L flag (.cval { decl := t, val := v, ctype := ct, cd := e }) =
        .ok none := by
  cases t with
  | func c =>
    refine ⟨rfl, ?_⟩
    intro L v ct e flag
    simp [cdata_meta.metatype_check, cdata_meta.metatype_getmt, Res.bind]
  | ptr base =>
    cases base with
    | func c =>
      refine ⟨rfl, ?_⟩
      intro L v ct e flag
      simp [cdata_meta.metatype_check, cdata_meta.metatype_getmt, Res.bind]
    | _ => simp [c_type.closure] at h
  | _ => simp [c_type.closure] at h

/-- C12: for a closure-kind value `c`, once `cb_free(c)` has succeeded the
value has no bound closure data and the trampoline is released; from then on,
in any state, `cb_free(c)`, `cb_set(c, f)` and `call(c, ...)` raise "bad
callback" before any access to the released closure data. -/
theorem cb_free_then_bad_callback (E : Env) (L L1 : lua_State) (c : cdata) (v1 : LuaValue)
    (hclosure : c.decl.closure = true)
    (hfree : cdata_meta.cb_free L (.cval c) = .ok (L1, v1)) :
    v1 = .cval { c with cd := none } ∧
    (∀ k, c.cd = some k → L1.closures k = none) ∧
    ∀ (L2 : lua_State) (f : LuaValue) (args : List LuaValue),
      cdata_meta.cb_free L2 v1 = .error "bad callback" ∧
      cdata_meta.cb_set L2 v1 f = .error "bad callback" ∧
      cdata_meta.call E L2 v1 args = .error "bad callback" := by
  obtain ⟨decl, val, ctp, e⟩ := c
  simp only at hclosure
  have hct : ctp = false := by
    cases ctp
    · rfl
    · simp [cdata_meta.cb_free, checkcdata, Res.bind] at hfree
  subst hct
  cases e with
  | none => simp [cdata_meta.cb_free, checkcdata, Res.bind, hclosure] at hfree
  | some k =>
    simp only [cdata_meta.cb_free, checkcdata, Res.bind, hclosure, Bool.not_true,
      Bool.false_eq_true, if_false, destroy_closure] at hfree
    cases hk : L.closures k with
    | none => simp [hk] at hfree
    | some fref =>
      simp only [hk, Res.ok.injEq, Prod.mk.injEq] at hfree
      obtain ⟨hL, hv⟩ := hfree
      refine ⟨hv.symm, ?_, ?_⟩
      · intro k2 hk2
        simp only [Option.some.injEq] at hk2
        subst hk2
        rw [← hL]
        simp
      · intro L2 f args
        rw [← hv]
        obtain ⟨hcall, hmt⟩ := closure_kind decl hclosure
        refine ⟨?_, ?_, ?_⟩
        · simp [cdata_meta.cb_free, checkcdata, Res.bind, hclosure]
        · simp [cdata_meta.cb_set, checkcdata, Res.bind, hclosure]
        · simp [cdata_meta.call, hmt, Res.bind, hclosure, hcall]

/-- Witness of `cb_free_then_bad_callback`: the sample callback, bound to the
live closure data at address 500. -/
theorem cb_free_then_bad_callback_witness :
    (LuaValue.cval { sample_callback with cd := none }) =
      .cval { sample_callback with cd := none } ∧
    (∀ k, sample_callback.cd = some k →
      ({ closure_state with
          closures := fun j => if j = 500 then none else closure_state.closures j }
        : lua_State).closures k = none) ∧
    ∀ (L2 : lua_State) (f : LuaValue) (args : List LuaValue),
      cdata_meta.cb_free L2 (.cval { sample_callback with cd := none }) =
        .error "bad callback" ∧
      cdata_meta.cb_set L2 (.cval { sample_callback with cd := none }) f =
        .error "bad callback" ∧
      cdata_meta.call sample_env L2 (.cval { sample_callback with cd := none }) args =
        .error "bad callback" :=
  cb_free_then_bad_callback sample_env closure_state
    { closure_state with
      closures := fun j => if j = 500 then none else closure_state.closures j }
    sample_callback (.cval { sample_callback with cd := none }) rfl rfl

/-! ### Override dispatch of the binary operators -/

theorem testcdata_some (v : LuaValue) (cd : cdata) (h : testcdata v = some cd) :
    v = .cval cd ∧ cd.ctype = false := by
  cases v with
  | cval c =>
    unfold testcdata at h
    by_cases hc : c.ctype = true
    · simp [hc] at h
    · simp only [hc, Bool.false_eq_true, if_false, Option.some.injEq] at h
      subst h
      exact ⟨rfl, by simpa using hc⟩
  | _ => simp [testcdata] at h

theorem metatype_getmt_cval (L : lua_State) (cd : cdata) :
    ∃ m, cdata_meta.metatype_getmt L (.cval cd) = .ok m := by
  obtain ⟨decl, v, ct, e⟩ := cd
  cases decl with
  | ptr base => cases base <;> exact ⟨_, rfl⟩
  | ref base => cases base <;> exact ⟨_, rfl⟩
  | _ => exact ⟨_, rfl⟩

theorem metatype_check_of_cdata (L : lua_State) (flag : metatype_flag) (v : LuaValue)
    (cd : cdata) (h : testcdata v = some cd) :
    cdata_meta.metatype_check L flag v = .ok (override_of L flag v) ∧
    (has_flag L flag v = false → override_of L flag v = none) := by
  obtain ⟨hv, _⟩ := testcdata_some v cd h
  unfold cdata_meta.metatype_check override_of has_flag
  rw [h]
  subst hv
  obtain ⟨m, hm⟩ := metatype_getmt_cval L cd
  rw [hm]
  simp only [Res.bind]
  by_cases hb : m.2.testBit flag.pos = true
  · simp [hb]
  · simp [hb]

theorem binop_try_mt_first (E : Env) (L : lua_State) (flag : metatype_flag)
    (a b f : LuaValue) (h : override_of L flag a = some f) :
    cdata_meta.binop_try_mt E L flag (testcdata a) (testcdata b) a b =
      (lua_call1 E f [a, b]).bind (fun r => .ok (some r)) := by
  cases ha : testcdata a with
  | none => simp [override_of, ha] at h
  | some cd =>
    have hm := (metatype_check_of_cdata L flag a cd ha).1
    unfold cdata_meta.binop_try_mt
    simp only [Option.isSome_some, if_true, hm, h, Res.bind]

theorem binop_try_mt_second (E : Env) (L : lua_State) (flag : metatype_flag)
    (a b f : LuaValue) (h1 : override_of L flag a = none) (h2 : override_of L flag b = some f) :
    cdata_meta.binop_try_mt E L flag (testcdata a) (testcdata b) a b =
      (lua_call1 E f [a, b]).bind (fun r => .ok (some r)) := by
  cases hb : testcdata b with
  | none => simp [override_of, hb] at h2
  | some cd2 =>
    have hm2 := (metatype_check_of_cdata L flag b cd2 hb).1
    unfold cdata_meta.binop_try_mt
    cases ha : testcdata a with
    | none => simp only [Option.isSome_none, Bool.false_eq_true, if_false, Option.isSome_some,
        if_true, hm2, h2, Res.bind]
    | some cd1 =>
      have hm1 := (metatype_check_of_cdata L flag a cd1 ha).1
      simp only [Option.isSome_some, if_true, hm1, h1, hm2, h2, Res.bind]

theorem binop_try_mt_none (E : Env) (L : lua_State) (flag : metatype_flag)
    (a b : LuaValue) (h1 : has_flag L flag a = false) (h2 : has_flag L flag b = false) :
    cdata_meta.binop_try_mt E L flag (testcdata a) (testcdata b) a b = .ok none := by
  have k : ∀ v, has_flag L flag v = false →
      (if (testcdata v).isSome then cdata_meta.metatype_check L flag v else .ok none) =
        .ok none := by
    intro v hv
    cases hc : testcdata v with
    | none => simp
    | some cd =>
      obtain ⟨hm, hn⟩ := metatype_check_of_cdata L flag v cd hc
      simp [hm, hn hv]
  unfold cdata_meta.binop_try_mt
  rw [k a h1]
  simp only [Res.bind]
  rw [k b h2]

theorem dispatch_override (r : Res LuaValue) (builtin : Res LuaValue) :
    ((r.bind (fun x => Res.ok (some x))).bind (fun o =>
      match o with
      | some res => Res.ok res
      | none => builtin)) = r := by
  cases r <;> rfl

/-- C13: for each of the binary operators `add`, `sub`, `mul`, `div`, `mod`,
`pow`, `concat`, `eq` and `lt` as installed by `setup`: when the first
operand has an override for the operator, or the first has none and the
second has one, the result is that override called on `(a, b)` in this
order and nothing else is computed; when the capability flags of neither
operand include the operator, the result does not depend on `lua_call`, so
no override is invoked. -/
theorem binop_override_dispatch (E : Env) (L : lua_State) (flag : metatype_flag)
    (op : Env → lua_State → LuaValue → LuaValue → Res LuaValue) (a b : LuaValue)
    (hflag : flag ∈ [metatype_flag.ADD, .SUB, .MUL, .DIV, .MOD, .POW, .CONCAT, .EQ, .LT])
    (hop : cdata_meta.setup flag = some op) :
    (∀ f, override_of L flag a = some f → op E L a b = lua_call1 E f [a, b]) ∧
    (∀ f, override_of L flag a = none → override_of L flag b = some f →
      op E L a b = lua_call1 E f [a, b]) ∧
    (has_flag L flag a = false → has_flag L flag b = false →
      ∀ call2, op { E with lua_call := call2 } L a b = op E L a b) := by
  simp only [List.mem_cons, List.mem_singleton, List.not_mem_nil, or_false] at hflag
  rcases hflag with h | h | h | h | h | h | h | h | h <;> subst h <;>
    simp only [cdata_meta.setup, Option.some.injEq] at hop <;> subst hop <;>
    refine ⟨?_, ?_, ?_⟩
  all_goals first
    | (intro f hf
       simp only [cdata_meta.add, cdata_meta.sub, cdata_meta.arith_bin, cdata_meta.pow,
         cdata_meta.concat, cdata_meta.eq, cdata_meta.lt]
       rw [binop_try_mt_first E L _ a b f hf]
       exact dispatch_override _ _)
    | (intro f hf1 hf2
       simp only [cdata_meta.add, cdata_meta.sub, cdata_meta.arith_bin, cdata_meta.pow,
         cdata_meta.concat, cdata_meta.eq, cdata_meta.lt]
       rw [binop_try_mt_second E L _ a b f hf1 hf2]
       exact dispatch_override _ _)
    | (intro h1 h2 call2
       simp only [cdata_meta.add, cdata_meta.sub, cdata_meta.arith_bin, cdata_meta.pow,
         cdata_meta.concat, cdata_meta.eq, cdata_meta.lt]
       rw [binop_try_mt_none _ L _ a b h1 h2, binop_try_mt_none _ L _ a b h1 h2] <;> rfl)

/-- Witness of `binop_override_dispatch`: `lt` on two values of record 7,
whose metatype has the `__lt` override function 0. -/
theorem binop_override_dispatch_witness :
    (∀ f, override_of lt_state .LT (rec7 1) = some f →
      cdata_meta.lt sample_env lt_state (rec7 1) (rec7 2) =
        lua_call1 sample_env f [rec7 1, rec7 2]) ∧
    (∀ f, override_of lt_state .LT (rec7 1) = none →
      override_of lt_state .LT (rec7 2) = some f →
      cdata_meta.lt sample_env lt_state (rec7 1) (rec7 2) =
        lua_call1 sample_env f [rec7 1, rec7 2]) ∧
    (has_flag lt_state .LT (rec7 1) = false → has_flag lt_state .LT (rec7 2) = false →
      ∀ call2, cdata_meta.lt { sample_env with lua_call := call2 } lt_state (rec7 1) (rec7 2) =
        cdata_meta.lt sample_env lt_state (rec7 1) (rec7 2)) :=
  binop_override_dispatch sample_env lt_state .LT cdata_meta.lt (rec7 1) (rec7 2)
    (by decide) rfl

/-- The override of record 7 for `lt` is function 0, and `lt` returns what it
returns on `(a, b)`; an `int *` has no flag, and a record of another identity
has none either. -/
theorem binop_override_example :
    override_of lt_state .LT (rec7 1) = some (.func 0) ∧
    cdata_meta.lt sample_env lt_state (rec7 1) (rec7 2) = .ok (.boolean true) ∧
    cdata_meta.lt sample_env lt_state (rec7 2) (rec7 1) = .ok (.boolean false) ∧
    has_flag lt_state .LT (int_ptr 1000) = false ∧
    has_flag lt_state .ADD (rec7 1) = false :=
  ⟨rfl, rfl, rfl, rfl, rfl⟩

/-! ### Ordering -/

/-- What `lt` does without a `__lt` override when at least one operand is a
cdata: with exactly one cdata, a comparison by promoted value when its type
is arithmetic and `lua_isnumber` holds of the other operand, the comparison
error otherwise; with two cdata of arithmetic dereferenced types, a
comparison by promoted value; with two pointers to the same pointee type, the
comparison of the dereferenced addresses; the comparison error in every
other case. -/
theorem lt_builtin (E : Env) (L : lua_State) (a b : LuaValue)
    (hmt : cdata_meta.binop_try_mt E L .LT (testcdata a) (testcdata b) a b = .ok none) :
    (∀ c1, testcdata a = some c1 → testcdata b = none →
      cdata_meta.lt E L a b =
        if c1.decl.is_arith = true ∧ lua_isnumber E b = true then
          cdata_meta.arith_64bit_cmp E .LT a b
        else .error (cdata_meta.compare_error E a b)) ∧
    (∀ c2, testcdata a = none → testcdata b = some c2 →
      cdata_meta.lt E L a b =
        if c2.decl.is_arith = true ∧ lua_isnumber E a = true then
          cdata_meta.arith_64bit_cmp E .LT a b
        else .error (cdata_meta.compare_error E a b)) ∧
    (∀ c1 c2, testcdata a = some c1 → testcdata b = some c2 →
      c1.decl.deref.is_arith = true → c2.decl.deref.is_arith = true →
      cdata_meta.lt E L a b = cdata_meta.arith_64bit_cmp E .LT a b) ∧
    (∀ c1 c2 base1 base2, testcdata a = some c1 → testcdata b = some c2 →
      c1.decl.deref = .ptr base1 → c2.decl.deref = .ptr base2 →
      E.is_same base1 base2 true = true →
      cdata_meta.lt E L a b =
        .ok (.boolean (decide (E.get_deref_addr c1 < E.get_deref_addr c2)))) ∧
    (∀ c1 c2, testcdata a = some c1 → testcdata b = some c2 →
      (c1.decl.deref.is_arith = false ∨ c2.decl.deref.is_arith = false) →
      (∀ base1 base2, c1.decl.deref = .ptr base1 → c2.decl.deref = .ptr base2 →
        E.is_same base1 base2 true = false) →
      cdata_meta.lt E L a b = .error (cdata_meta.compare_error E a b)) := by
  refine ⟨?_, ?_, ?_, ?_, ?_⟩
  · intro c1 h1 h2
    unfold cdata_meta.lt
    simp only [hmt]
    simp only [h1, h2, Res.bind, cdata_meta.cmp_base]
    by_cases hc : c1.decl.is_arith = true ∧ lua_isnumber E b = true
    · rw [if_pos hc]
      simp only [hc.1, hc.2, Bool.not_true, Bool.or_self, Bool.false_eq_true, if_false]
      cases cdata_meta.arith_64bit_cmp E .LT a b <;> rfl
    · rw [if_neg hc]
      have : (!c1.decl.is_arith || !lua_isnumber E b) = true := by
        cases h3 : c1.decl.is_arith <;> cases h4 : lua_isnumber E b <;> simp_all
      simp only [this, if_true]
  · intro c2 h1 h2
    unfold cdata_meta.lt
    simp only [hmt]
    simp only [h1, h2, Res.bind, cdata_meta.cmp_base]
    by_cases hc : c2.decl.is_arith = true ∧ lua_isnumber E a = true
    · rw [if_pos hc]
      simp only [hc.1, hc.2, Bool.not_true, Bool.or_self, Bool.false_eq_true, if_false]
      cases cdata_meta.arith_64bit_cmp E .LT a b <;> rfl
    · rw [if_neg hc]
      have : (!c2.decl.is_arith || !lua_isnumber E a) = true := by
        cases h3 : c2.decl.is_arith <;> cases h4 : lua_isnumber E a <;> simp_all
      simp only [this, if_true]
  · intro c1 c2 h1 h2 ha1 ha2
    unfold cdata_meta.lt
    simp only [hmt]
    simp only [h1, h2, Res.bind, cdata_meta.cmp_base, ha1, ha2, Bool.and_self, if_true]
    cases cdata_meta.arith_64bit_cmp E .LT a b <;> rfl
  · intro c1 c2 base1 base2 h1 h2 hd1 hd2 hsame
    unfold cdata_meta.lt
    simp only [hmt]
    simp only [h1, h2, Res.bind, cdata_meta.cmp_base, hd1, hd2, c_type.is_arith,
      Bool.and_self, Bool.false_eq_true, if_false, hsame, Bool.not_true]
  · intro c1 c2 h1 h2 hna hnp
    unfold cdata_meta.lt
    simp only [hmt]
    simp only [h1, h2, Res.bind, cdata_meta.cmp_base]
    have hand : (c1.decl.deref.is_arith && c2.decl.deref.is_arith) = false := by
      rcases hna with h | h <;> simp [h]
    simp only [hand, Bool.false_eq_true, if_false]
    cases hd1 : c1.decl.deref <;> cases hd2 : c2.decl.deref <;> simp only []
    rename_i base1 base2
    have := hnp base1 base2 hd1 hd2
    simp [this]

/-- C14 (the code at the failing input): a ctype is no cdata for
`testcdata`, so for two ctypes, or a ctype and a number, `lt` reaches
`cmp_base` with two null pointers and reads `ccd->decl` through the null
pointer `ccd` instead of raising the comparison error. -/
theorem lt_on_ctypes_faults :
    testcdata (newctype (.arith 4)) = none ∧
    cdata_meta.lt sample_env plain_state (newctype (.arith 4)) (newctype (.arith 4)) =
      .fault "ccd is null" ∧
    cdata_meta.lt sample_env plain_state (newctype (.arith 4)) (.number 5) =
      .fault "ccd is null" ∧
    cdata_meta.lt sample_env plain_state (int_ptr 1000) (.number 5) =
      .error "attempt to compare 'V' with 'V'" :=
  ⟨rfl, rfl, rfl, rfl⟩

/-! ### Calls -/

/-- C15 (counterexample): record 7 is not callable-kind and has a `__call`
override, function 1; `call` on a value of record 7 invokes the override on
the value and the arguments and does not raise "is not callable". -/
theorem call_record_override_counterexample :
    (c_type.record { id := 7 }).callable = false ∧
    cdata_meta.metatype_check call_state .CALL (rec7 1) = .ok (some (.func 1)) ∧
    cdata_meta.call sample_env call_state (rec7 1) [.number 5] = .ok [rec7 1, .number 5] ∧
    cdata_meta.call sample_env call_state (rec7 1) [.number 5] ≠
      .error ("'" ++ sample_env.serialize (.record { id := 7 }) ++ "' is not callable") := by
  refine ⟨rfl, rfl, rfl, ?_⟩
  decide

/-- C15 (amended): the dispatch order of `call` on a value `v` of this
system: (1) a ctype constructs a new value of its type from the arguments;
(2) else, when the record metatype of `v` has a `call` override, the override
is invoked on `v` followed by the arguments, whether or not `v` is
callable-kind; (3) else a `v` that is not callable raises "is not callable";
(4) else a closure-kind `v` without bound closure data raises "bad callback";
(5) else the call goes to `call_cif` with exactly the arguments after `v`. -/
theorem call_dispatch_order (E : Env) (L : lua_State) (fd : cdata) (args : List LuaValue) :
    (fd.ctype = true →
      cdata_meta.call E L (.cval fd) args = (E.make_cdata fd.decl args).bind (fun r => .ok [r])) ∧
    (fd.ctype = false → ∀ f, cdata_meta.metatype_check L .CALL (.cval fd) = .ok (some f) →
      cdata_meta.call E L (.cval fd) args = E.lua_call f (.cval fd :: args)) ∧
    (fd.ctype = false → cdata_meta.metatype_check L .CALL (.cval fd) = .ok none →
      fd.decl.callable = false →
      cdata_meta.call E L (.cval fd) args =
        .error ("'" ++ E.serialize fd.decl ++ "' is not callable")) ∧
    (fd.ctype = false → cdata_meta.metatype_check L .CALL (.cval fd) = .ok none →
      fd.decl.callable = true → fd.decl.closure = true → fd.cd = none →
      cdata_meta.call E L (.cval fd) args = .error "bad callback") ∧
    (fd.ctype = false → cdata_meta.metatype_check L .CALL (.cval fd) = .ok none →
      fd.decl.callable = true → (fd.decl.closure = false ∨ fd.cd ≠ none) →
      cdata_meta.call E L (.cval fd) args = E.call_cif fd args) := by
  refine ⟨?_, ?_, ?_, ?_, ?_⟩
  · intro h
    simp [cdata_meta.call, h]
  · intro h f hf
    simp [cdata_meta.call, h, hf, Res.bind]
  · intro h hm hc
    simp [cdata_meta.call, h, hm, hc, Res.bind]
  · intro h hm hc hcl hcd
    simp [cdata_meta.call, h, hm, hc, hcl, hcd, Res.bind]
  · intro h hm hc hor
    rcases hor with hcl | hcd
    · simp [cdata_meta.call, h, hm, hc, hcl, Res.bind]
    · cases hx : fd.cd with
      | none => exact absurd hx hcd
      | some k => simp [cdata_meta.call, h, hm, hc, hx, Res.bind]

/-- Witness of `call_dispatch_order`: a value of record 7, which has a
`__call` override, called with one argument. -/
theorem call_dispatch_order_witness :
    cdata_meta.call sample_env call_state (rec7 1) [.number 5] =
      sample_env.lua_call (.func 1) [rec7 1, .number 5] :=
  (call_dispatch_order sample_env call_state
    { decl := .record { id := 7 }, val := 1, ctype := false } [.number 5]).2.1 rfl (.func 1) rfl

/-- The other branches of `call` on sample values: a ctype constructs, an
`int *` is not callable, a callback without closure data is a bad callback,
and a bound callback is called with the arguments after it. -/
theorem call_example :
    cdata_meta.call sample_env plain_state (newctype (.arith 4)) [.number 5] =
      .ok [.cval { decl := .arith 4, val := 0, ctype := false }] ∧
    cdata_meta.call sample_env plain_state (int_ptr 1000) [.number 5] =
      .error "'T' is not callable" ∧
    cdata_meta.call sample_env plain_state (.cval { sample_callback with cd := none })
      [.number 5] = .error "bad callback" ∧
    cdata_meta.call sample_env plain_state (.cval sample_callback) [.number 5, .number 6] =
      .ok [.number 5, .number 6] :=
  ⟨rfl, rfl, rfl, rfl⟩

/-! ### Indexing -/

/-- C16 (the code at the failing input): a callback indexed with `"free"` or
`"set"` yields the pseudo-method and with another string or a number raises
an error, but with a key that is neither string nor number (`true`, `nil`, a
table) the null result of `lua_tostring` reaches `strcmp` before the test
`!mname`, and no error is raised. -/
theorem index_callback_null_key :
    sample_callback.decl.closure = true ∧
    cdata_meta.metatype_check plain_state .INDEX (.cval sample_callback) = .ok none ∧
    cdata_meta.index sample_env plain_state (.cval sample_callback) (.string "free") =
      .ok (.cfunction .cb_free) ∧
    cdata_meta.index sample_env plain_state (.cval sample_callback) (.string "set") =
      .ok (.cfunction .cb_set) ∧
    cdata_meta.index sample_env plain_state (.cval sample_callback) (.string "other") =
      .error "'T' has no member named 'other'" ∧
    cdata_meta.index sample_env plain_state (.cval sample_callback) (.number 5) =
      .error "'T' has no member named '5'" ∧
    lua_tostring sample_env (.boolean true) = none ∧
    cdata_meta.index sample_env plain_state (.cval sample_callback) (.boolean true) =
      .fault "strcmp on a null key string" ∧
    cdata_meta.index sample_env plain_state (.cval sample_callback) .nil =
      .fault "strcmp on a null key string" ∧
    cdata_meta.index sample_env plain_state (.cval sample_callback) (.table 0) =
      .fault "strcmp on a null key string" :=
  ⟨rfl, rfl, rfl, rfl, rfl, rfl, rfl, rfl, rfl, rfl⟩

/-- What `index` does on a callback without `__index` override when the key
is a string or a number: the two pseudo-methods for `"free"` and `"set"`, the
error "has no member named" for every other key string. -/
theorem index_callback_string_key (E : Env) (L : lua_State) (cd : cdata) (key : LuaValue)
    (mname : String)
    (hcl : cd.decl.closure = true)
    (hmt : cdata_meta.metatype_check L .INDEX (.cval cd) = .ok none)
    (hkey : lua_tostring E key = some mname) :
    cdata_meta.index E L (.cval cd) key =
      if mname = "free" then .ok (.cfunction .cb_free)
      else if mname = "set" then .ok (.cfunction .cb_set)
      else .error ("'" ++ E.serialize cd.decl ++ "' has no member named '" ++ mname ++ "'") := by
  simp [cdata_meta.index, hmt, Res.bind, hcl, hkey]

theorem lua_Integer_of_small (n : Nat) (h : n < 2 ^ 63) : lua_Integer_of_size_t n = (n : Int) := by
  unfold lua_Integer_of_size_t
  have h64 : n < 2 ^ 64 := by omega
  rw [Nat.mod_eq_of_lt h64]
  exact toSigned_of_small n h

/-- C19: indexing a pointer or array value `p` that is not a ctype. When
the base type has size 0, `index_common` raises the "incomplete type" error
for every key; otherwise, at index `i`, it hands on the base type and the
address of `p` plus `i * alloc_size(base)` (in the 64-bit address space),
an address inside the referent. When `index` has no `__index` override to
call and `p` is not a callback, it converts exactly that element. -/
theorem index_pointer_scaled (E : Env) (cd : cdata) (base : c_type)
    (hct : cd.ctype = false) (hkind : cd.decl = .ptr base ∨ cd.decl = .array base) :
    (E.alloc_size base = 0 → ∀ key,
      cdata_meta.index_common E (.cval cd) key =
        .error ("attempt to index an incomplete type '" ++ E.serialize cd.decl ++ "'")) ∧
    (0 < E.alloc_size base → ∀ key i, E.check_arith_size_t 2 key = .ok i →
      cdata_meta.index_common E (.cval cd) key =
        .ok (base, (cd.val + i * E.alloc_size base) % 2 ^ 64)) ∧
    (∀ L, cdata_meta.metatype_check L .INDEX (.cval cd) = .ok none → cd.decl.closure = false →
      (E.alloc_size base = 0 → ∀ key,
        cdata_meta.index E L (.cval cd) key =
          .error ("attempt to index an incomplete type '" ++ E.serialize cd.decl ++ "'")) ∧
      (0 < E.alloc_size base → ∀ key i, E.check_arith_size_t 2 key = .ok i →
        cdata_meta.index E L (.cval cd) key =
          (E.to_lua base ((cd.val + i * E.alloc_size base) % 2 ^ 64)).bind (fun v =>
            match v with
            | some res => .ok res
            | none => .error "invalid C type"))) := by
  have hzero : E.alloc_size base = 0 → ∀ key,
      cdata_meta.index_common E (.cval cd) key =
        .error ("attempt to index an incomplete type '" ++ E.serialize cd.decl ++ "'") := by
    intro hz key
    rcases hkind with h | h <;> simp [cdata_meta.index_common, hct, h, hz]
  have hpos : 0 < E.alloc_size base → ∀ key i, E.check_arith_size_t 2 key = .ok i →
      cdata_meta.index_common E (.cval cd) key =
        .ok (base, (cd.val + i * E.alloc_size base) % 2 ^ 64) := by
    intro hs key i hi
    have hne : E.alloc_size base ≠ 0 := by omega
    rcases hkind with h | h <;>
      simp [cdata_meta.index_common, hct, h, hne, hi, Res.bind]
  refine ⟨hzero, hpos, ?_⟩
  intro L hmt hcl
  refine ⟨?_, ?_⟩
  · intro hz key
    simp [cdata_meta.index, hmt, hcl, hzero hz key, Res.bind]
  · intro hs key i hi
    simp [cdata_meta.index, hmt, hcl, hpos hs key i hi, Res.bind]

/-- Witness of `index_pointer_scaled`: an `int *` at address 1000. -/
theorem index_pointer_scaled_witness :
    cdata_meta.index_common sample_env (int_ptr 1000) (.number 5) =
      .ok (c_type.arith 4, (1000 + 5 * sample_env.alloc_size (c_type.arith 4)) % 2 ^ 64) :=
  (index_pointer_scaled sample_env { decl := .ptr (.arith 4), val := 1000, ctype := false }
    (.arith 4) rfl (Or.inl rfl)).2.1 (by decide) (.number 5) 5 rfl

/-- Indexing on sample values: element 5 of an `int *` at 1000 is at 1020;
a `void *` cannot be indexed, whatever the key. -/
theorem index_pointer_example :
    cdata_meta.index_common sample_env (int_ptr 1000) (.number 5) = .ok (.arith 4, 1020) ∧
    cdata_meta.index sample_env plain_state (int_ptr 1000) (.number 5) =
      .ok (.cval { decl := .ref (.arith 4), val := 1020, ctype := false }) ∧
    cdata_meta.index sample_env plain_state (void_ptr 1000) (.number 5) =
      .error "attempt to index an incomplete type 'T'" ∧
    cdata_meta.index sample_env plain_state (void_ptr 1000) (.table 3) =
      .error "attempt to index an incomplete type 'T'" :=
  ⟨rfl, rfl, rfl, rfl⟩

/-- C20: indexing a reference value `r` ignores the key. For every key,
`index_common` hands on the base type of `r` and the address `r` holds,
whatever the kind of the base type; when `index` has no `__index` override to
call, any two keys give the same result, the conversion of that single
pointee. -/
theorem index_reference_ignores_key (E : Env) (cd : cdata) (base : c_type)
    (hct : cd.ctype = false) (hkind : cd.decl = .ref base) :
    (∀ key, cdata_meta.index_common E (.cval cd) key = .ok (base, cd.val)) ∧
    (∀ L, cdata_meta.metatype_check L .INDEX (.cval cd) = .ok none → ∀ k1 k2,
      cdata_meta.index E L (.cval cd) k1 = cdata_meta.index E L (.cval cd) k2 ∧
      cdata_meta.index E L (.cval cd) k1 =
        (E.to_lua base cd.val).bind (fun v =>
          match v with
          | some res => .ok res
          | none => .error "invalid C type")) := by
  have hcommon : ∀ key, cdata_meta.index_common E (.cval cd) key = .ok (base, cd.val) := by
    intro key
    simp [cdata_meta.index_common, hct, hkind]
  have hcl : cd.decl.closure = false := by rw [hkind]; rfl
  have hidx : ∀ L, cdata_meta.metatype_check L .INDEX (.cval cd) = .ok none → ∀ k,
      cdata_meta.index E L (.cval cd) k =
        (E.to_lua base cd.val).bind (fun v =>
          match v with
          | some res => .ok res
          | none => .error "invalid C type") := by
    intro L hmt k
    simp [cdata_meta.index, hmt, hcl, hcommon k, Res.bind]
  refine ⟨hcommon, ?_⟩
  intro L hmt k1 k2
  exact ⟨by rw [hidx L hmt k1, hidx L hmt k2], hidx L hmt k1⟩

/-- Witness of `index_reference_ignores_key`: a reference to an `int *`,
holding address 2000, indexed with a number and with a table. -/
theorem index_reference_ignores_key_witness :
    (∀ key, cdata_meta.index_common sample_env
        (.cval { decl := .ref (.ptr (.arith 4)), val := 2000, ctype := false }) key =
      .ok (c_type.ptr (.arith 4), 2000)) ∧
    (∀ L, cdata_meta.metatype_check L .INDEX
        (.cval { decl := .ref (.ptr (.arith 4)), val := 2000, ctype := false }) = .ok none →
      ∀ k1 k2,
      cdata_meta.index sample_env L
          (.cval { decl := .ref (.ptr (.arith 4)), val := 2000, ctype := false }) k1 =
        cdata_meta.index sample_env L
          (.cval { decl := .ref (.ptr (.arith 4)), val := 2000, ctype := false }) k2 ∧
      cdata_meta.index sample_env L
          (.cval { decl := .ref (.ptr (.arith 4)), val := 2000, ctype := false }) k1 =
        (sample_env.to_lua (c_type.ptr (.arith 4)) 2000).bind (fun v =>
          match v with
          | some res => .ok res
          | none => .error "invalid C type")) :=
  index_reference_ignores_key sample_env
    { decl := .ref (.ptr (.arith 4)), val := 2000, ctype := false } (.ptr (.arith 4)) rfl rfl

/-! ### `ffi.ref` and `ffi.sizeof` -/

/-- C17: `ref_f` on a cdata value `v`: when the type of `v` is a reference,
the result is `v` itself; otherwise it is a new value whose type is the
reference to the type of `v` and whose address is the address of `v`. In both
cases a second `ref_f` returns its argument. -/
theorem ref_f_idempotent (E : Env) (cd : cdata) (hct : cd.ctype = false) :
    (∀ base, cd.decl = .ref base → ffi_module.ref_f E (.cval cd) = .ok (.cval cd)) ∧
    (cd.decl.type ≠ c_builtin.REF →
      ffi_module.ref_f E (.cval cd) =
        .ok (.cval { decl := .ref cd.decl, val := E.get_addr cd, ctype := false })) ∧
    (∀ w, ffi_module.ref_f E (.cval cd) = .ok w → ffi_module.ref_f E w = .ok w) := by
  have h1 : ∀ base, cd.decl = .ref base → ffi_module.ref_f E (.cval cd) = .ok (.cval cd) := by
    intro base hb
    simp [ffi_module.ref_f, checkcdata, hct, Res.bind, hb]
  have h2 : cd.decl.type ≠ c_builtin.REF →
      ffi_module.ref_f E (.cval cd) =
        .ok (.cval { decl := .ref cd.decl, val := E.get_addr cd, ctype := false }) := by
    intro hne
    unfold ffi_module.ref_f
    simp only [checkcdata, hct, Bool.false_eq_true, if_false, Res.bind]
    cases hd : cd.decl <;> simp_all [c_type.type]
  refine ⟨h1, h2, ?_⟩
  intro w hw
  cases hd : cd.decl with
  | ref base =>
    rw [h1 base hd] at hw
    simp only [Res.ok.injEq] at hw
    rw [← hw]
    exact h1 base hd
  | _ =>
    rw [h2 (by simp [hd, c_type.type])] at hw
    simp only [Res.ok.injEq] at hw
    rw [← hw]
    simp [ffi_module.ref_f, checkcdata, Res.bind]

/-- Witness of `ref_f_idempotent`: an `int *` value. -/
theorem ref_f_idempotent_witness :
    ffi_module.ref_f sample_env (int_ptr 1000) =
      .ok (.cval { decl := .ref (.ptr (.arith 4)),
                   val := sample_env.get_addr { decl := .ptr (.arith 4), val := 1000,
                                                ctype := false },
                   ctype := false }) :=
  (ref_f_idempotent sample_env { decl := .ptr (.arith 4), val := 1000, ctype := false }
    rfl).2.1 (by decide)

/-- The product of an element size and a non-negative length, pushed as a
Lua integer, is the exact product when that is below `2 ^ 63`. -/
theorem sizeof_scale (s : Nat) (n : Int) (h0 : 0 ≤ n) (hs : (s : Int) * n < 2 ^ 63) :
    lua_Integer_of_size_t (s * n.toNat) = (s : Int) * n := by
  have hn : ((n.toNat : Nat) : Int) = n := Int.toNat_of_nonneg h0
  have hlt : s * n.toNat < 2 ^ 63 := by
    have : ((s * n.toNat : Nat) : Int) < 2 ^ 63 := by
      push_cast
      rw [hn]
      exact hs
    exact_mod_cast this
  rw [lua_Integer_of_small _ hlt]
  push_cast
  rw [hn]

/-- C18: `sizeof_f`. On a cdata value the result is the size of the value.
On a type argument: for a VLA type with element size `s` and a length `n`
given as a number, a numeric string or an integer cdata, no value when
`n < 0` and `s * n` when `n ≥ 0`; for an unbounded type that is not a VLA, no
value; for every other type, its `alloc_size`. Sizes are those representable
as a Lua integer (below `2 ^ 63`). -/
theorem sizeof_f_spec (E : Env) (a1 a2 : LuaValue) :
    (∀ cd, testcdata a1 = some cd → E.cdata_value_size cd < 2 ^ 63 →
      ffi_module.sizeof_f E a1 a2 = .ok (some (.number (E.cdata_value_size cd)))) ∧
    (∀ ct tv base, iscdata a1 = false → ffi_module.check_ct E a1 = .ok (ct, tv) →
      E.vla ct = true → ct.ptr_base = some base →
      (∀ n, a2 = .number n →
        (n < 0 → ffi_module.sizeof_f E a1 a2 = .ok none) ∧
        (0 ≤ n → (E.alloc_size base : Int) * n < 2 ^ 63 →
          ffi_module.sizeof_f E a1 a2 = .ok (some (.number ((E.alloc_size base : Int) * n))))) ∧
      (∀ str, a2 = .string str → E.string_is_number str = true →
        (E.string_to_number str < 0 → ffi_module.sizeof_f E a1 a2 = .ok none) ∧
        (0 ≤ E.string_to_number str →
          (E.alloc_size base : Int) * E.string_to_number str < 2 ^ 63 →
          ffi_module.sizeof_f E a1 a2 =
            .ok (some (.number ((E.alloc_size base : Int) * E.string_to_number str))))) ∧
      (∀ cd n, a2 = .cval cd → E.integer cd.decl = true → E.is_unsigned cd.decl = false →
        E.check_arith_llong 2 a2 = .ok n →
        (n < 0 → ffi_module.sizeof_f E a1 a2 = .ok none) ∧
        (0 ≤ n → (E.alloc_size base : Int) * n < 2 ^ 63 →
          ffi_module.sizeof_f E a1 a2 = .ok (some (.number ((E.alloc_size base : Int) * n))))) ∧
      (∀ cd n, a2 = .cval cd → E.integer cd.decl = true → E.is_unsigned cd.decl = true →
        E.check_arith_size_t 2 a2 = .ok n → E.alloc_size base * n < 2 ^ 63 →
        ffi_module.sizeof_f E a1 a2 =
          .ok (some (.number ((E.alloc_size base * n : Nat) : Int))))) ∧
    (∀ ct tv, iscdata a1 = false → ffi_module.check_ct E a1 = .ok (ct, tv) →
      E.vla ct = false → E.unbounded ct = true →
      ffi_module.sizeof_f E a1 a2 = .ok none) ∧
    (∀ ct tv, iscdata a1 = false → ffi_module.check_ct E a1 = .ok (ct, tv) →
      E.vla ct = false → E.unbounded ct = false → E.alloc_size ct < 2 ^ 63 →
      ffi_module.sizeof_f E a1 a2 = .ok (some (.number (E.alloc_size ct)))) := by
  refine ⟨?_, ?_, ?_, ?_⟩
  · intro cd hcd hsz
    have hv := (testcdata_some a1 cd hcd)
    have hic : iscdata a1 = true := by
      rw [hv.1]; simp [iscdata, hv.2]
    simp [ffi_module.sizeof_f, hic, hcd, lua_Integer_of_small _ hsz]
  · intro ct tv base hic hck hvla hbase
    refine ⟨?_, ?_, ?_, ?_⟩
    · intro n ha2
      subst ha2
      refine ⟨?_, ?_⟩
      · intro hneg
        simp [ffi_module.sizeof_f, hic, hck, hvla, Res.bind, hneg]
      · intro h0 hs
        have hnn : ¬ n < 0 := by omega
        simp [ffi_module.sizeof_f, hic, hck, hvla, Res.bind, hnn, hbase,
          sizeof_scale _ n h0 hs]
    · intro str ha2 hnum
      subst ha2
      refine ⟨?_, ?_⟩
      · intro hneg
        simp [ffi_module.sizeof_f, hic, hck, hvla, Res.bind, hnum, hneg]
      · intro h0 hs
        have hnn : ¬ E.string_to_number str < 0 := by omega
        simp [ffi_module.sizeof_f, hic, hck, hvla, Res.bind, hnum, hnn, hbase,
          sizeof_scale _ _ h0 hs]
    · intro cd n ha2 hint hsig hn
      subst ha2
      refine ⟨?_, ?_⟩
      · intro hneg
        simp [ffi_module.sizeof_f, hic, hck, hvla, Res.bind, hint, hsig, hn, hneg]
      · intro h0 hs
        have hnn : ¬ n < 0 := by omega
        simp [ffi_module.sizeof_f, hic, hck, hvla, Res.bind, hint, hsig, hn, hnn, hbase,
          sizeof_scale _ n h0 hs]
    · intro cd n ha2 hint hsig hn hs
      subst ha2
      simp [ffi_module.sizeof_f, hic, hck, hvla, Res.bind, hint, hsig, hn, hbase,
        lua_Integer_of_small _ hs]
  · intro ct tv hic hck hvla hunb
    simp [ffi_module.sizeof_f, hic, hck, hvla, hunb, Res.bind]
  · intro ct tv hic hck hvla hunb hs
    simp [ffi_module.sizeof_f, hic, hck, hvla, hunb, Res.bind, lua_Integer_of_small _ hs]

/-- The branches of `sizeof_f` on sample values: `int[?]` (the sample VLA
type, 4-byte elements) with lengths 10 and -1, the sample unbounded type
`char[]`, the type `int`, named and as a ctype, and an `int *` value. -/
theorem sizeof_f_example :
    ffi_module.sizeof_f sample_env (newctype (.array (.arith 4))) (.number 10) =
      .ok (some (.number 40)) ∧
    ffi_module.sizeof_f sample_env (newctype (.array (.arith 4))) (.number (-1)) = .ok none ∧
    ffi_module.sizeof_f sample_env (newctype (.array (.arith 1))) .nil = .ok none ∧
    ffi_module.sizeof_f sample_env (.string "int") .nil = .ok (some (.number 4)) ∧
    ffi_module.sizeof_f sample_env (newctype (.arith 4)) .nil = .ok (some (.number 4)) ∧
    ffi_module.sizeof_f sample_env (int_ptr 1000) .nil = .ok (some (.number 8)) ∧
    ffi_module.sizeof_f sample_env (newctype (.array (.arith 4))) .nil =
      .fault "tocdata on a value that is not a cdata" :=
  ⟨rfl, rfl, rfl, rfl, rfl, rfl, rfl⟩


/-! ### Shifts -/

/-- C21: in a shift with no metatype override the evaluator receives the
left operand after `shift_promote` and the right operand, tag and value, as
`check_arith_expr` gave it. The left tag is `ULLONG` exactly when it was
64-bit unsigned (`ULLONG`, or `ULONG` where `long` is as wide as `long long`),
its value then untouched, and `LLONG` otherwise, its value then promoted to
`long long`; the right operand has no part in it. -/
theorem shift_promotes_left_only (E : Env) (L : lua_State) (mflag : metatype_flag)
    (bop : c_expr_binop) (a b : LuaValue) (l r : c_expr_type × c_value)
    (hmt : cdata_meta.binop_try_mt E L mflag (testcdata a) (testcdata b) a b = .ok none)
    (ha : E.check_arith_expr 1 a = .ok l) (hb : E.check_arith_expr 2 b = .ok r) :
    cdata_meta.shift_bin mflag bop E L a b =
      (E.eval bop (cdata_meta.shift_promote E.P l.1 l.2) r).bind (fun res =>
        E.make_cdata_arith res.1 res.2) ∧
    ((cdata_meta.shift_promote E.P l.1 l.2).1 = c_expr_type.ULLONG ↔ is_u64 E.P l.1) ∧
    (is_u64 E.P l.1 → (cdata_meta.shift_promote E.P l.1 l.2).2 = l.2) ∧
    (¬ is_u64 E.P l.1 →
      cdata_meta.shift_promote E.P l.1 l.2 =
        (c_expr_type.LLONG,
          (cdata_meta.promote_to_64bit E.P true .LLONG (cdata_meta.promote_long E.P l.1) l.2).2)) := by
  refine ⟨?_, ?_, ?_, ?_⟩
  · unfold cdata_meta.shift_bin
    simp only [hmt]
    simp only [ha, hb, Res.bind]
  · by_cases h64 : E.P.long_bits = 64 <;> cases hl : l.1 <;>
      simp [cdata_meta.shift_promote, cdata_meta.promote_long, cdata_meta.promote_to_64bit,
        is_u64, h64]
  · intro hu
    by_cases h64 : E.P.long_bits = 64 <;> cases hl : l.1 <;>
      simp_all [cdata_meta.shift_promote, cdata_meta.promote_long, cdata_meta.promote_to_64bit,
        is_u64]
  · intro hu
    by_cases h64 : E.P.long_bits = 64 <;> cases hl : l.1 <;>
      simp_all [cdata_meta.shift_promote, cdata_meta.promote_long, cdata_meta.promote_to_64bit,
        is_u64]

/-- Witness of `shift_promotes_left_only`: `1 << 3` on two Lua numbers. -/
theorem shift_promotes_left_only_witness :
    cdata_meta.shift_bin .SHL .LSH sample_env plain_state (.number 1) (.number 3) =
      (sample_env.eval .LSH
          (cdata_meta.shift_promote sample_env.P c_expr_type.LLONG { bits := wrap 64 1 })
          (c_expr_type.LLONG, { bits := wrap 64 3 })).bind (fun res =>
        sample_env.make_cdata_arith res.1 res.2) ∧
    ((cdata_meta.shift_promote sample_env.P c_expr_type.LLONG { bits := wrap 64 1 }).1 =
        c_expr_type.ULLONG ↔ is_u64 sample_env.P c_expr_type.LLONG) ∧
    (is_u64 sample_env.P c_expr_type.LLONG →
      (cdata_meta.shift_promote sample_env.P c_expr_type.LLONG { bits := wrap 64 1 }).2 =
        { bits := wrap 64 1 }) ∧
    (¬ is_u64 sample_env.P c_expr_type.LLONG →
      cdata_meta.shift_promote sample_env.P c_expr_type.LLONG { bits := wrap 64 1 } =
        (c_expr_type.LLONG,
          (cdata_meta.promote_to_64bit sample_env.P true .LLONG
            (cdata_meta.promote_long sample_env.P c_expr_type.LLONG) { bits := wrap 64 1 }).2)) :=
  shift_promotes_left_only sample_env plain_state .SHL .LSH (.number 1) (.number 3)
    (c_expr_type.LLONG, { bits := wrap 64 1 }) (c_expr_type.LLONG, { bits := wrap 64 3 })
    rfl rfl rfl

/-- A shift and a binary operation on the same tags: with a signed left
operand and a `ULLONG` right operand the shift keeps the left side `LLONG`,
where `promote_sides` makes both sides `ULLONG`; `1 << 3` is 8. -/
theorem shift_example :
    (cdata_meta.shift_promote lp64 c_expr_type.INT { bits := 1 }).1 = c_expr_type.LLONG ∧
    (cdata_meta.promote_sides lp64 c_expr_type.INT { bits := 1 } c_expr_type.ULLONG
      { bits := 3 }).1.1 = c_expr_type.ULLONG ∧
    (cdata_meta.shift_promote lp64 c_expr_type.ULONG { bits := 1 }).1 = c_expr_type.ULLONG ∧
    (cdata_meta.shift_promote llp64 c_expr_type.ULONG { bits := 1 }).1 = c_expr_type.LLONG ∧
    cdata_meta.shift_bin .SHL .LSH sample_env plain_state (.number 1) (.number 3) =
      .ok (.cval { decl := .arith 8, val := 8, ctype := false }) :=
  ⟨rfl, rfl, rfl, rfl, rfl⟩

/-! ### `check_voidptr` -/

/-- C22 (the code at the failing input): `copy(dst, src, len)` with a
pointer as destination and a table (or `true`, or `nil`) as source raises the
argument error of position 2 with the type name of the value at position 1,
"userdata", not "table"; an offending destination, at position 1, is named
with its own type, in `copy` and in `fill`. -/
theorem check_voidptr_names_first_argument :
    ffi_module.luaL_typename (some (.table 0)) = "table" ∧
    ffi_module.check_voidptr sample_env [int_ptr 1000, .table 0, .number 4] 2 =
      .error "bad argument #2 (cannot convert 'userdata' to 'void *')" ∧
    ffi_module.copy_f sample_env [int_ptr 1000, .table 0, .number 4] =
      .error "bad argument #2 (cannot convert 'userdata' to 'void *')" ∧
    ffi_module.copy_f sample_env [int_ptr 1000, .boolean true, .number 4] =
      .error "bad argument #2 (cannot convert 'userdata' to 'void *')" ∧
    ffi_module.copy_f sample_env [int_ptr 1000, .nil, .number 4] =
      .error "bad argument #2 (cannot convert 'userdata' to 'void *')" ∧
    ffi_module.copy_f sample_env [.table 0, int_ptr 1000, .number 4] =
      .error "bad argument #1 (cannot convert 'table' to 'void *')" ∧
    ffi_module.fill_f sample_env [.boolean true, .number 4] =
      .error "bad argument #1 (cannot convert 'boolean' to 'void *')" :=
  ⟨rfl, rfl, rfl, rfl, rfl, rfl, rfl⟩

/-- What `check_voidptr` raises for a value at `idx` that is neither of this
system nor a userdata: the argument error of position `idx` whose message
carries the type name of the value at position 1. -/
theorem check_voidptr_message (E : Env) (stack : List LuaValue) (idx : Nat) (v : LuaValue)
    (hv : stack[idx - 1]? = some v) (hc : ∀ cd, v ≠ .cval cd) (hu : ∀ id, v ≠ .userdata id) :
    ffi_module.check_voidptr E stack idx =
      .error (arg_error idx
        ("cannot convert '" ++ ffi_module.luaL_typename stack[0]? ++ "' to 'void *'")) := by
  unfold ffi_module.check_voidptr
  rw [hv]
  cases v with
  | cval cd => exact absurd rfl (hc cd)
  | userdata id => exact absurd rfl (hu id)
  | _ => rfl

/-- The transfers `copy` and `fill` perform on well-typed arguments. -/
theorem copy_fill_example :
    ffi_module.copy_f sample_env [int_ptr 1000, int_ptr 2000, .number 4] =
      .ok { dst := 1000, src := .addr 2000, len := 4 } ∧
    ffi_module.copy_f sample_env [int_ptr 1000, .string "abc"] =
      .ok { dst := 1000, src := .str "abc", len := 3 } ∧
    ffi_module.copy_f sample_env [.userdata 0, .string "abc", .number 2] =
      .ok { dst := 4096, src := .str "abc", len := 2 } ∧
    ffi_module.fill_f sample_env [int_ptr 1000, .number 4, .number 255] =
      .ok { dst := 1000, byte := 255, len := 4 } ∧
    ffi_module.fill_f sample_env [int_ptr 1000, .number 4] =
      .ok { dst := 1000, byte := 0, len := 4 } :=
  ⟨rfl, rfl, rfl, rfl, rfl⟩

/-! ### Metatype lookup -/

/-- C23: `metatype_getmt` on a value whose type is a record `R`, a pointer to
`R` or a reference to `R` returns the registration of `R` (the reference of
its override table and its capability flags); on a value of any other type,
a pointer to a pointer to `R` included, it returns `LUA_REFNIL` and leaves
the flags 0, and `metatype_check` is then false for every operator. -/
theorem metatype_getmt_one_level (L : lua_State) (cd : cdata) :
    (∀ r, (cd.decl = .record r ∨ cd.decl = .ptr (.record r) ∨ cd.decl = .ref (.record r)) →
      cdata_meta.metatype_getmt L (.cval cd) = .ok (L.metatype r.id)) ∧
    ((∀ r, cd.decl ≠ .record r ∧ cd.decl ≠ .ptr (.record r) ∧ cd.decl ≠ .ref (.record r)) →
      cdata_meta.metatype_getmt L (.cval cd) = .ok (LUA_REFNIL, 0) ∧
      ∀ flag, cdata_meta.metatype_check L flag (.cval cd) = .ok none) := by
  obtain ⟨decl, val, ct, e⟩ := cd
  refine ⟨?_, ?_⟩
  · intro r h
    simp only at h
    rcases h with h | h | h <;> subst h <;> rfl
  · intro h
    simp only at h
    have hget : cdata_meta.metatype_getmt L (.cval { decl := decl, val := val, ctype := ct, cd := e })
        = .ok (LUA_REFNIL, 0) := by
      cases decl with
      | record r => exact absurd rfl (h r).1
      | ptr base =>
        cases base with
        | record r => exact absurd rfl (h r).2.1
        | _ => rfl
      | ref base =>
        cases base with
        | record r => exact absurd rfl (h r).2.2
        | _ => rfl
      | _ => rfl
    refine ⟨hget, ?_⟩
    intro flag
    simp [cdata_meta.metatype_check, hget, Res.bind]

/-- Metatype lookup on sample values in `lt_state`, where record 7 is
registered under reference 1 with the flag of `__lt`: the record, a pointer
to it and a reference to it reach the registration; a pointer to a pointer,
an array of records and an `int *` do not. -/
theorem metatype_getmt_example :
    cdata_meta.metatype_getmt lt_state (rec7 1) = .ok (1, 1024) ∧
    cdata_meta.metatype_getmt lt_state
      (.cval { decl := .ptr (.record { id := 7 }), val := 1, ctype := false }) = .ok (1, 1024) ∧
    cdata_meta.metatype_getmt lt_state
      (.cval { decl := .ref (.record { id := 7 }), val := 1, ctype := false }) = .ok (1, 1024) ∧
    cdata_meta.metatype_getmt lt_state
      (.cval { decl := .ptr (.ptr (.record { id := 7 })), val := 1, ctype := false }) =
        .ok (LUA_REFNIL, 0) ∧
    cdata_meta.metatype_getmt lt_state
      (.cval { decl := .array (.record { id := 7 }), val := 1, ctype := false }) =
        .ok (LUA_REFNIL, 0) ∧
    cdata_meta.metatype_getmt lt_state (int_ptr 1000) = .ok (LUA_REFNIL, 0) ∧
    cdata_meta.metatype_check lt_state .LT
      (.cval { decl := .ptr (.record { id := 7 }), val := 1, ctype := false }) =
        .ok (some (.func 0)) ∧
    cdata_meta.metatype_check lt_state .LT
      (.cval { decl := .ptr (.ptr (.record { id := 7 })), val := 1, ctype := false }) =
        .ok none :=
  ⟨rfl, rfl, rfl, rfl, rfl, rfl, rfl, rfl⟩

/-! ### Values under promotion -/

theorem set64_low (v : c_value) (y : Int) : (v.set64 y).bits % 2 ^ 64 = wrap 64 y := by
  unfold c_value.set64
  simp only
  rw [Nat.mul_add_mod_of_lt (wrap_lt y)]

theorem set64_ll (v : c_value) (y : Int) : (v.set64 y).ll = cast64 true y := by
  unfold c_value.ll cast64 toSigned
  simp only [if_true]
  rw [set64_low, Nat.mod_eq_of_lt (wrap_lt y)]

theorem set64_ull (v : c_value) (y : Int) : (v.set64 y).ull = cast64 false y := by
  unfold c_value.ull cast64
  simp only [Bool.false_eq_true, if_false]
  rw [set64_low]

theorem cast64_unsigned (x : Int) : cast64 false x = x % (2 : Int) ^ 64 := by
  unfold cast64
  simp only [Bool.false_eq_true, if_false]
  exact wrap_cast x

theorem toSigned_range (w n : Nat) (hw : w = 32 ∨ w = 64) :
    -(2 : Int) ^ 63 ≤ toSigned w n ∧ toSigned w n < (2 : Int) ^ 63 := by
  rcases hw with h | h <;> subst h
  · unfold toSigned
    have hlt : n % 2 ^ 32 < 2 ^ 32 := Nat.mod_lt _ (by norm_num)
    split <;> constructor <;> omega
  · unfold toSigned
    have hlt : n % 2 ^ 64 < 2 ^ 64 := Nat.mod_lt _ (by norm_num)
    split
    · rename_i h1
      have h2 : n % 2 ^ 64 < 2 ^ 63 := h1
      constructor <;> omega
    · rename_i h1
      have h2 : ¬ n % 2 ^ 64 < 2 ^ 63 := h1
      constructor <;> omega

theorem promote_signed_of_range (v : c_value) (y : Int)
    (hy : -(2 : Int) ^ 63 ≤ y ∧ y < (2 : Int) ^ 63) :
    (v.set64 (cast64 true y)).ll = y := by
  rw [set64_ll, cast64_idem]
  exact cast64_of_in_range true y (by simpa [in_range64] using hy)

theorem promote_unsigned_mod (v : c_value) (y : Int) :
    (v.set64 (cast64 false y)).ull = y % (2 : Int) ^ 64 := by
  rw [set64_ull, cast64_idem, cast64_unsigned]

theorem promote_to_64bit_int (P : Platform) (s : Bool) (et t : c_expr_type) (v : c_value)
    (x : Int) (hx : tag_value P t v = some x) (ht : t ≠ c_expr_type.ULLONG) :
    cdata_meta.promote_to_64bit P s et t v = (et, v.set64 (cast64 s x)) := by
  cases t <;> simp [tag_value] at hx ht <;> subst hx <;> rfl

theorem tag_value_signed_range (P : Platform) (t : c_expr_type) (v : c_value) (x : Int)
    (hP : P.long_bits = 32 ∨ P.long_bits = 64)
    (hx : tag_value P t v = some x) (ht : t ≠ c_expr_type.ULLONG)
    (hu : t = c_expr_type.ULONG → P.long_bits = 32) :
    -(2 : Int) ^ 63 ≤ x ∧ x < (2 : Int) ^ 63 := by
  cases t <;> simp [tag_value] at hx ht <;> subst hx
  · exact toSigned_range 32 _ (Or.inl rfl)
  · unfold c_value.u
    have hlt : v.bits % 2 ^ 32 < 2 ^ 32 := Nat.mod_lt _ (by norm_num)
    constructor <;> omega
  · exact toSigned_range P.long_bits _ hP
  · unfold c_value.ul
    rw [hu rfl]
    have hlt : v.bits % 2 ^ 32 < 2 ^ 32 := Nat.mod_lt _ (by norm_num)
    constructor <;> omega
  · exact toSigned_range 64 _ (Or.inr rfl)

theorem tag_value_unsigned (P : Platform) (t : c_expr_type) (v : c_value) (x : Int)
    (hP : P.long_bits = 32 ∨ P.long_bits = 64)
    (hx : tag_value P t v = some x)
    (ht : t = c_expr_type.UINT ∨ t = c_expr_type.ULONG ∨ t = c_expr_type.ULLONG) :
    x % (2 : Int) ^ 64 = x := by
  have key : ∀ (w n : Nat), w = 32 ∨ w = 64 →
      ((n % 2 ^ w : Nat) : Int) % (2 : Int) ^ 64 = ((n % 2 ^ w : Nat) : Int) := by
    intro w n hw
    apply Int.emod_eq_of_lt (Int.ofNat_nonneg _)
    rcases hw with h | h <;> subst h
    · have hlt : n % 2 ^ 32 < 2 ^ 32 := Nat.mod_lt _ (by norm_num)
      omega
    · have hlt : n % 2 ^ 64 < 2 ^ 64 := Nat.mod_lt _ (by norm_num)
      omega
  rcases ht with h | h | h <;> subst h <;> simp only [tag_value, Option.some.injEq] at hx <;>
    subst hx
  · exact key 32 _ (Or.inl rfl)
  · exact key P.long_bits _ hP
  · exact key 64 _ (Or.inr rfl)

theorem tag_value_promote_long (P : Platform) (t : c_expr_type) (v : c_value)
    (hP : P.long_bits = 32 ∨ P.long_bits = 64) :
    tag_value P (cdata_meta.promote_long P t) v = tag_value P t v ∧
    (cdata_meta.promote_long P t = c_expr_type.ULONG → P.long_bits = 32) := by
  rcases hP with h | h
  · have hne : ¬ P.long_bits = 64 := by omega
    simp [cdata_meta.promote_long, hne, h]
  · cases t <;>
      simp [cdata_meta.promote_long, h, tag_value, c_value.l, c_value.ll, c_value.ul,
        c_value.ull]

theorem promote_long_ullong_iff (P : Platform) (t : c_expr_type) :
    cdata_meta.promote_long P t = c_expr_type.ULLONG ↔ is_u64 P t := by
  by_cases h64 : P.long_bits = 64 <;> cases t <;> simp [cdata_meta.promote_long, is_u64, h64]

theorem promote_signed_value (P : Platform) (t : c_expr_type) (v : c_value) (x : Int)
    (hP : P.long_bits = 32 ∨ P.long_bits = 64)
    (hx : tag_value P t v = some x) (hu : ¬ is_u64 P t) :
    (cdata_meta.promote_to_64bit P true .LLONG t v).1 = c_expr_type.LLONG ∧
    (cdata_meta.promote_to_64bit P true .LLONG t v).2.ll = x := by
  have hne : t ≠ c_expr_type.ULLONG := fun h => hu (Or.inl h)
  have h32 : t = c_expr_type.ULONG → P.long_bits = 32 := by
    intro h
    rcases hP with h1 | h1
    · exact h1
    · exact absurd (Or.inr ⟨h, h1⟩) hu
  rw [promote_to_64bit_int P true .LLONG t v x hx hne]
  exact ⟨rfl, promote_signed_of_range v x (tag_value_signed_range P t v x hP hx hne h32)⟩

theorem promote_unsigned_value (P : Platform) (t : c_expr_type) (v : c_value) (x : Int)
    (hP : P.long_bits = 32 ∨ P.long_bits = 64)
    (hx : tag_value P t v = some x) :
    (cdata_meta.promote_to_64bit P false .ULLONG t v).1 = c_expr_type.ULLONG ∧
    (cdata_meta.promote_to_64bit P false .ULLONG t v).2.ull = x % (2 : Int) ^ 64 := by
  by_cases hne : t = c_expr_type.ULLONG
  · subst hne
    have hmod := tag_value_unsigned P .ULLONG v x hP hx (Or.inr (Or.inr rfl))
    simp only [tag_value, Option.some.injEq] at hx
    refine ⟨rfl, ?_⟩
    rw [hmod, ← hx]
    rfl
  · rw [promote_to_64bit_int P false .ULLONG t v x hx hne]
    exact ⟨rfl, promote_unsigned_mod v x⟩

theorem promote_long_not_u64 (P : Platform) (t : c_expr_type) (hu : ¬ is_u64 P t) :
    ¬ is_u64 P (cdata_meta.promote_long P t) := by
  by_cases h64 : P.long_bits = 64 <;> cases t <;>
    simp_all [cdata_meta.promote_long, is_u64]

/-- C24: `promote_to_64bit` preserves integer values. For a value holding the
integer `x` under an integer tag `t`, on a platform with a 32- or 64-bit
`long`: promotion to `LLONG`, which the code requests exactly for tags that
are not 64-bit unsigned, leaves a `long long` equal to `x` (sign extension of
`INT`, `LONG`, `LLONG`; zero extension of `UINT` and of a 32-bit `ULONG`),
directly and after `promote_long`; promotion to `ULLONG` leaves an
`unsigned long long` equal to `x mod 2^64`, directly and after `promote_long`,
and that is `x` itself for `UINT`, `ULONG` and `ULLONG`; a 64-bit unsigned
operand (`ULLONG`, or `ULONG` with a 64-bit `long`, retagged by
`promote_long`) keeps its stored bits under every promotion. Hence
`promote_sides` returns both operands as `ULLONG` holding `x mod 2^64`,
`y mod 2^64` when one of them is 64-bit unsigned and as `LLONG` holding `x`,
`y` otherwise, and the one-operand promotion of `shift_bin` and `arith_un`
returns `LLONG` holding `x` or the untouched 64-bit unsigned operand. E.g.
`INT(2147483647)` promoted to `ULLONG` is 2147483647 and `INT(-1)` is
`2^64 - 1`. -/
theorem promote_to_64bit_preserves (P : Platform) (t : c_expr_type) (v : c_value) (x : Int)
    (hP : P.long_bits = 32 ∨ P.long_bits = 64)
    (hx : tag_value P t v = some x) :
    (¬ is_u64 P t →
      ((cdata_meta.promote_to_64bit P true .LLONG t v).1 = c_expr_type.LLONG ∧
        (cdata_meta.promote_to_64bit P true .LLONG t v).2.ll = x) ∧
      ((cdata_meta.promote_to_64bit P true .LLONG (cdata_meta.promote_long P t) v).1 =
          c_expr_type.LLONG ∧
        (cdata_meta.promote_to_64bit P true .LLONG (cdata_meta.promote_long P t) v).2.ll =
          x)) ∧
    (((cdata_meta.promote_to_64bit P false .ULLONG t v).1 = c_expr_type.ULLONG ∧
        (cdata_meta.promote_to_64bit P false .ULLONG t v).2.ull = x % (2 : Int) ^ 64) ∧
      ((cdata_meta.promote_to_64bit P false .ULLONG (cdata_meta.promote_long P t) v).1 =
          c_expr_type.ULLONG ∧
        (cdata_meta.promote_to_64bit P false .ULLONG (cdata_meta.promote_long P t) v).2.ull =
          x % (2 : Int) ^ 64)) ∧
    ((t = c_expr_type.UINT ∨ t = c_expr_type.ULONG ∨ t = c_expr_type.ULLONG) →
      x % (2 : Int) ^ 64 = x) ∧
    (is_u64 P t → ∀ s et,
      (cdata_meta.promote_to_64bit P s et (cdata_meta.promote_long P t) v).2 = v ∧
      v.ull = x) ∧
    (t = c_expr_type.ULLONG → ∀ s et, (cdata_meta.promote_to_64bit P s et t v).2 = v) ∧
    (∀ (rt : c_expr_type) (rv : c_value) (y : Int), tag_value P rt rv = some y →
      ((is_u64 P t ∨ is_u64 P rt) →
        (cdata_meta.promote_sides P t v rt rv).1.1 = c_expr_type.ULLONG ∧
        (cdata_meta.promote_sides P t v rt rv).2.1 = c_expr_type.ULLONG ∧
        (cdata_meta.promote_sides P t v rt rv).1.2.ull = x % (2 : Int) ^ 64 ∧
        (cdata_meta.promote_sides P t v rt rv).2.2.ull = y % (2 : Int) ^ 64) ∧
      (¬ (is_u64 P t ∨ is_u64 P rt) →
        (cdata_meta.promote_sides P t v rt rv).1.1 = c_expr_type.LLONG ∧
        (cdata_meta.promote_sides P t v rt rv).2.1 = c_expr_type.LLONG ∧
        (cdata_meta.promote_sides P t v rt rv).1.2.ll = x ∧
        (cdata_meta.promote_sides P t v rt rv).2.2.ll = y)) ∧
    ((is_u64 P t → cdata_meta.shift_promote P t v = (c_expr_type.ULLONG, v)) ∧
      (¬ is_u64 P t →
        (cdata_meta.shift_promote P t v).1 = c_expr_type.LLONG ∧
        (cdata_meta.shift_promote P t v).2.ll = x)) ∧
    (cdata_meta.promote_to_64bit P false .ULLONG .INT { bits := 2147483647 }).2.ull =
      2147483647 ∧
    (cdata_meta.promote_to_64bit P false .ULLONG .INT { bits := wrap 32 (-1) }).2.ull =
      2 ^ 64 - 1 := by
  obtain ⟨hpl, -⟩ := tag_value_promote_long P t v hP
  have hxl : tag_value P (cdata_meta.promote_long P t) v = some x := by rw [hpl]; exact hx
  have hstored : is_u64 P t → ∀ (s : Bool) (et : c_expr_type),
      (cdata_meta.promote_to_64bit P s et (cdata_meta.promote_long P t) v).2 = v := by
    intro hu s et
    rw [(promote_long_ullong_iff P t).2 hu]
    rfl
  refine ⟨?_, ?_, ?_, ?_, ?_, ?_, ?_, ?_, ?_⟩
  · intro hu
    exact ⟨promote_signed_value P t v x hP hx hu,
      promote_signed_value P _ v x hP hxl (promote_long_not_u64 P t hu)⟩
  · exact ⟨promote_unsigned_value P t v x hP hx, promote_unsigned_value P _ v x hP hxl⟩
  · exact tag_value_unsigned P t v x hP hx
  · intro hu s et
    refine ⟨hstored hu s et, ?_⟩
    rw [(promote_long_ullong_iff P t).2 hu] at hxl
    simpa [tag_value] using hxl
  · intro h s et
    subst h
    rfl
  · intro rt rv y hy
    obtain ⟨hpr, -⟩ := tag_value_promote_long P rt rv hP
    have hyl : tag_value P (cdata_meta.promote_long P rt) rv = some y := by rw [hpr]; exact hy
    constructor
    · intro hu
      have hc : cdata_meta.promote_long P t = c_expr_type.ULLONG ∨
          cdata_meta.promote_long P rt = c_expr_type.ULLONG :=
        hu.imp (promote_long_ullong_iff P t).2 (promote_long_ullong_iff P rt).2
      have hs : cdata_meta.promote_sides P t v rt rv =
          (cdata_meta.promote_to_64bit P false .ULLONG (cdata_meta.promote_long P t) v,
            cdata_meta.promote_to_64bit P false .ULLONG (cdata_meta.promote_long P rt) rv) := by
        unfold cdata_meta.promote_sides
        simp only [if_pos hc]
      rw [hs]
      exact ⟨(promote_unsigned_value P _ v x hP hxl).1, (promote_unsigned_value P _ rv y hP hyl).1,
        (promote_unsigned_value P _ v x hP hxl).2, (promote_unsigned_value P _ rv y hP hyl).2⟩
    · intro hu
      have hc : ¬ (cdata_meta.promote_long P t = c_expr_type.ULLONG ∨
          cdata_meta.promote_long P rt = c_expr_type.ULLONG) := fun h =>
        hu (h.imp (promote_long_ullong_iff P t).1 (promote_long_ullong_iff P rt).1)
      have hs : cdata_meta.promote_sides P t v rt rv =
          (cdata_meta.promote_to_64bit P true .LLONG (cdata_meta.promote_long P t) v,
            cdata_meta.promote_to_64bit P true .LLONG (cdata_meta.promote_long P rt) rv) := by
        unfold cdata_meta.promote_sides
        simp only [if_neg hc]
      have hl := promote_signed_value P _ v x hP hxl
        (promote_long_not_u64 P t (fun h => hu (Or.inl h)))
      have hr := promote_signed_value P _ rv y hP hyl
        (promote_long_not_u64 P rt (fun h => hu (Or.inr h)))
      rw [hs]
      exact ⟨hl.1, hr.1, hl.2, hr.2⟩
  · constructor
    · intro hu
      have hc := (promote_long_ullong_iff P t).2 hu
      unfold cdata_meta.shift_promote
      simp [hc]
    · intro hu
      have hc : cdata_meta.promote_long P t ≠ c_expr_type.ULLONG := fun h =>
        hu ((promote_long_ullong_iff P t).1 h)
      have hs : cdata_meta.shift_promote P t v =
          cdata_meta.promote_to_64bit P true .LLONG (cdata_meta.promote_long P t) v := by
        unfold cdata_meta.shift_promote
        simp [hc]
      rw [hs]
      exact promote_signed_value P _ v x hP hxl (promote_long_not_u64 P t hu)
  · have h := promote_unsigned_value P .INT { bits := 2147483647 } 2147483647 hP
      (congrArg some (by decide : c_value.i { bits := 2147483647 } = 2147483647))
    rw [h.2]
    norm_num
  · have h := promote_unsigned_value P .INT { bits := wrap 32 (-1) } (-1) hP
      (congrArg some (by decide : c_value.i { bits := wrap 32 (-1) } = -1))
    rw [h.2]
    norm_num

/-- Witness of `promote_to_64bit_preserves`: an `int` holding -1 on the LP64
platform; promoted to `LLONG` it is -1, promoted to `ULLONG` it is `2^64 - 1`,
also when `promote_sides` meets an `unsigned long` holding 1 on the other
side. -/
theorem promote_to_64bit_preserves_witness :
    (lp64.long_bits = 32 ∨ lp64.long_bits = 64) ∧
    tag_value lp64 .INT { bits := wrap 32 (-1) } = some (-1) ∧
    (cdata_meta.promote_to_64bit lp64 true .LLONG .INT { bits := wrap 32 (-1) }).2.ll = -1 ∧
    (cdata_meta.promote_to_64bit lp64 false .ULLONG .INT { bits := wrap 32 (-1) }).2.ull =
      2 ^ 64 - 1 ∧
    (cdata_meta.promote_sides lp64 .INT { bits := wrap 32 (-1) } .ULONG { bits := 1 }).1.1 =
      c_expr_type.ULLONG ∧
    (cdata_meta.promote_sides lp64 .INT { bits := wrap 32 (-1) } .ULONG { bits := 1 }).1.2.ull =
      -1 % (2 : Int) ^ 64 ∧
    (cdata_meta.promote_sides lp64 .INT { bits := wrap 32 (-1) } .ULONG { bits := 1 }).2.2.ull =
      1 % (2 : Int) ^ 64 := by
  have h := promote_to_64bit_preserves lp64 .INT { bits := wrap 32 (-1) } (-1) (Or.inr rfl)
    (by decide)
  have hs := (h.2.2.2.2.2.1 .ULONG { bits := 1 } 1 (by decide)).1 (Or.inr (Or.inr ⟨rfl, rfl⟩))
  exact ⟨Or.inr rfl, by decide, (h.1 (by decide)).1.2, h.2.2.2.2.2.2.2.2, hs.1, hs.2.2.1,
    hs.2.2.2⟩

/-- Every caller retags a 64-bit `ULONG` as `ULLONG` before promoting and then
leaves its storage alone, so the conversion `(long long)(unsigned long)` is
applied to a 32-bit `unsigned long` only: the function on its own would read
a 64-bit `ULONG` holding `2^64 - 1` back as -1. -/
theorem promote_callers_ulong_example :
    cdata_meta.promote_sides lp64 .ULONG { bits := 2 ^ 64 - 1 } .INT { bits := 1 } =
      ((c_expr_type.ULLONG, { bits := 2 ^ 64 - 1 }), (c_expr_type.ULLONG, { bits := 1 })) ∧
    cdata_meta.shift_promote lp64 .ULONG { bits := 2 ^ 64 - 1 } =
      (c_expr_type.ULLONG, { bits := 2 ^ 64 - 1 }) ∧
    cdata_meta.promote_long lp64 .ULONG = c_expr_type.ULLONG ∧
    (cdata_meta.promote_to_64bit lp64 true .LLONG .ULONG { bits := 2 ^ 64 - 1 }).2.ll = -1 := by
  decide

end cffi
